import Mathlib

/-!
Verification of the AnsibleTest controller (test-operator).

The definitions below shallowly embed `controllers/ansibletest_controller.go`.
Pure Go functions become Lean functions; the reflection-based field lookup
becomes a closed field-name table returning a `GoValue` (the embedding of a
Go `interface{}` value); a Go runtime panic (failed type assertion,
out-of-range index, reflection on a missing field) is modelled as `none` of
an `Option` result.

The CRD types (`api/v1beta1`), the shared `Reconciler` helpers
(lock operations, PVC ensure, pod creation, `NextAction`) and the lib-common
condition bookkeeping are not part of the embedded source file; they are
modelled from the specification (each such definition carries a
`Modelled from the spec:` doc comment).
-/

set_option autoImplicit false

namespace TestOperator

/-- Modelled from the spec: one per-step override record of the workflow
(`AnsibleTestWorkflowSpec` of `api/v1beta1`, not under the embedded sources).
String parameters are plain strings (empty = unset), the boolean and the
placement/resource parameters are pointers (`Option`, `none` = unset).
`Tolerations` and `Resources` payloads are opaque to the controller, so they
are represented by stand-in types (`List String`, `String`). -/
structure AnsibleTestWorkflowSpec where
  ContainerImage : String
  WorkloadSSHKeySecretName : String
  ComputesSSHKeySecretName : String
  AnsibleExtraVars : String
  AnsibleVarFiles : String
  AnsibleInventory : String
  AnsibleGitRepo : String
  AnsiblePlaybookPath : String
  AnsibleCollections : String
  Privileged : Option Bool
  Debug : Option Bool
  NodeSelector : Option (List (String × String))
  Tolerations : Option (List String)
  SELinuxLevel : Option String
  Resources : Option String
deriving DecidableEq

/-- Modelled from the spec: the base parameters of the workflow instance
(`AnsibleTestSpec` of `api/v1beta1`, not under the embedded sources):
base fields for every overridable parameter, the storage class and the
ordered `Workflow` list of per-step overrides. -/
structure AnsibleTestSpec where
  ContainerImage : String
  WorkloadSSHKeySecretName : String
  ComputesSSHKeySecretName : String
  AnsibleExtraVars : String
  AnsibleVarFiles : String
  AnsibleInventory : String
  AnsibleGitRepo : String
  AnsiblePlaybookPath : String
  AnsibleCollections : String
  Privileged : Bool
  Debug : Bool
  NodeSelector : List (String × String)
  Tolerations : List String
  SELinuxLevel : String
  Resources : String
  StorageClass : String
  Workflow : List AnsibleTestWorkflowSpec
deriving DecidableEq

/-- The embedding of a Go `interface{}` value as it flows through
`OverwriteAnsibleWithWorkflow`: the dynamic type tag is recorded by the
constructor (`gPBool` is a `*bool`, `gNil` the untyped `nil`). -/
inductive GoValue where
  | gBool (b : Bool)
  | gString (s : String)
  | gUint8 (n : Nat)
  | gPBool (p : Option Bool)
  | gPUint8 (p : Option Nat)
  | gPString (p : Option String)
  | gStringMap (m : List (String × String))
  | gPStringMap (p : Option (List (String × String)))
  | gStringList (l : List String)
  | gPStringList (p : Option (List String))
  | gNil
deriving DecidableEq

/-- `reflect.ValueOf(instance).FieldByName(name).Interface()` over the base
spec: the closed table of the struct's fields; an unknown field name is a
reflection panic (`none`). -/
def specFieldByName (inst : AnsibleTestSpec) (name : String) : Option GoValue :=
  if name = "ContainerImage" then some (.gString inst.ContainerImage)
  else if name = "WorkloadSSHKeySecretName" then some (.gString inst.WorkloadSSHKeySecretName)
  else if name = "ComputesSSHKeySecretName" then some (.gString inst.ComputesSSHKeySecretName)
  else if name = "AnsibleExtraVars" then some (.gString inst.AnsibleExtraVars)
  else if name = "AnsibleVarFiles" then some (.gString inst.AnsibleVarFiles)
  else if name = "AnsibleInventory" then some (.gString inst.AnsibleInventory)
  else if name = "AnsibleGitRepo" then some (.gString inst.AnsibleGitRepo)
  else if name = "AnsiblePlaybookPath" then some (.gString inst.AnsiblePlaybookPath)
  else if name = "AnsibleCollections" then some (.gString inst.AnsibleCollections)
  else if name = "Privileged" then some (.gBool inst.Privileged)
  else if name = "Debug" then some (.gBool inst.Debug)
  else if name = "NodeSelector" then some (.gStringMap inst.NodeSelector)
  else if name = "Tolerations" then some (.gStringList inst.Tolerations)
  else if name = "SELinuxLevel" then some (.gString inst.SELinuxLevel)
  else if name = "Resources" then some (.gString inst.Resources)
  else if name = "StorageClass" then some (.gString inst.StorageClass)
  else none

/-- `reflect.ValueOf(step).FieldByName(name).Interface()` over one workflow
override record. -/
def workflowFieldByName (step : AnsibleTestWorkflowSpec) (name : String) : Option GoValue :=
  if name = "ContainerImage" then some (.gString step.ContainerImage)
  else if name = "WorkloadSSHKeySecretName" then some (.gString step.WorkloadSSHKeySecretName)
  else if name = "ComputesSSHKeySecretName" then some (.gString step.ComputesSSHKeySecretName)
  else if name = "AnsibleExtraVars" then some (.gString step.AnsibleExtraVars)
  else if name = "AnsibleVarFiles" then some (.gString step.AnsibleVarFiles)
  else if name = "AnsibleInventory" then some (.gString step.AnsibleInventory)
  else if name = "AnsibleGitRepo" then some (.gString step.AnsibleGitRepo)
  else if name = "AnsiblePlaybookPath" then some (.gString step.AnsiblePlaybookPath)
  else if name = "AnsibleCollections" then some (.gString step.AnsibleCollections)
  else if name = "Privileged" then some (.gPBool step.Privileged)
  else if name = "Debug" then some (.gPBool step.Debug)
  else if name = "NodeSelector" then some (.gPStringMap step.NodeSelector)
  else if name = "Tolerations" then some (.gPStringList step.Tolerations)
  else if name = "SELinuxLevel" then some (.gPString step.SELinuxLevel)
  else if name = "Resources" then some (.gPString step.Resources)
  else none

/-- The Go type assertion `v.(bool)`; `none` is the assertion panic. -/
def assertBool : GoValue → Option Bool
  | .gBool b => some b
  | _ => none

/-- The Go type assertion `v.(string)`; `none` is the assertion panic. -/
def assertString : GoValue → Option String
  | .gString s => some s
  | _ => none

/-- `OverwriteAnsibleWithWorkflow` (ansibletest_controller.go:287-323).
If the step index is past the end of the override list, the base field is
returned unchanged.  Otherwise both the base and the step value of the field
are fetched by name and the type tag decides: `"pbool"` — a non-nil `*bool`
override wins, else the base value asserted to `bool`; `"puint8"` — a
non-nil `*uint8` override wins, else the base value as-is; `"string"` — a
non-empty string override wins, else the base value; any other tag returns
`nil`.  `none` models the Go panics (negative index, unknown field,
failed `SpecValue.(bool)` assertion). -/
def OverwriteAnsibleWithWorkflow (inst : AnsibleTestSpec) (sectionName : String)
    (workflowValueType : String) (workflowStepNum : Int) : Option GoValue :=
  if (inst.Workflow.length : Int) - 1 < workflowStepNum then
    specFieldByName inst sectionName
  else
    match specFieldByName inst sectionName with
    | none => none
    | some SpecValue =>
      if workflowStepNum < 0 then none
      else
        match inst.Workflow[workflowStepNum.toNat]? with
        | none => none
        | some step =>
          match workflowFieldByName step sectionName with
          | none => none
          | some WorkflowValue =>
            if workflowValueType = "pbool" then
              match WorkflowValue with
              | .gPBool (some b) => some (.gBool b)
              | _ =>
                match SpecValue with
                | .gBool b => some (.gBool b)
                | _ => none
            else if workflowValueType = "puint8" then
              match WorkflowValue with
              | .gPUint8 (some n) => some (.gUint8 n)
              | _ => some SpecValue
            else if workflowValueType = "string" then
              match WorkflowValue with
              | .gString s => if s ≠ "" then some (.gString s) else some SpecValue
              | _ => some SpecValue
            else
              some .gNil

/-- Upsert into a Go `map[string]string` / `map[string]env.Setter`,
represented as an association list (only the value of `env.SetValue` is
kept). -/
def setKV : List (String × String) → String → String → List (String × String)
  | [], k, v => [(k, v)]
  | (k', v') :: rest, k, v =>
      if k' = k then (k, v) :: rest else (k', v') :: setKV rest k v

/-- `PrepareAnsibleEnv` (ansibletest_controller.go:326-365): resolves the
three volume-override parameters, the `Debug` flag and the six environment
strings for one workflow step, in source order.  Every resolution goes
through `OverwriteAnsibleWithWorkflow` followed by the caller's type
assertion; `none` models a panic of any of those assertions. -/
def PrepareAnsibleEnv (spec : AnsibleTestSpec) (step : Int) :
    Option (List (String × String) × List (String × String)) := do
  let envVars : List (String × String) := []
  let workflowOverrideParams : List (String × String) := []
  let wssh ← (OverwriteAnsibleWithWorkflow spec "WorkloadSSHKeySecretName" "string" step).bind assertString
  let workflowOverrideParams := setKV workflowOverrideParams "WorkloadSSHKeySecretName" wssh
  let cssh ← (OverwriteAnsibleWithWorkflow spec "ComputesSSHKeySecretName" "string" step).bind assertString
  let workflowOverrideParams := setKV workflowOverrideParams "ComputesSSHKeySecretName" cssh
  let cimg ← (OverwriteAnsibleWithWorkflow spec "ContainerImage" "string" step).bind assertString
  let workflowOverrideParams := setKV workflowOverrideParams "ContainerImage" cimg
  let debug ← (OverwriteAnsibleWithWorkflow spec "Debug" "pbool" step).bind assertBool
  let envVars := if debug then setKV envVars "POD_DEBUG" "true" else envVars
  let extraVars ← (OverwriteAnsibleWithWorkflow spec "AnsibleExtraVars" "string" step).bind assertString
  let envVars := setKV envVars "POD_ANSIBLE_EXTRA_VARS" extraVars
  let extraVarsFile ← (OverwriteAnsibleWithWorkflow spec "AnsibleVarFiles" "string" step).bind assertString
  let envVars := setKV envVars "POD_ANSIBLE_FILE_EXTRA_VARS" extraVarsFile
  let inventory ← (OverwriteAnsibleWithWorkflow spec "AnsibleInventory" "string" step).bind assertString
  let envVars := setKV envVars "POD_ANSIBLE_INVENTORY" inventory
  let gitRepo ← (OverwriteAnsibleWithWorkflow spec "AnsibleGitRepo" "string" step).bind assertString
  let envVars := setKV envVars "POD_ANSIBLE_GIT_REPO" gitRepo
  let playbookPath ← (OverwriteAnsibleWithWorkflow spec "AnsiblePlaybookPath" "string" step).bind assertString
  let envVars := setKV envVars "POD_ANSIBLE_PLAYBOOK" playbookPath
  let ansibleCollections ← (OverwriteAnsibleWithWorkflow spec "AnsibleCollections" "string" step).bind assertString
  let envVars := setKV envVars "POD_INSTALL_COLLECTIONS" ansibleCollections
  some (envVars, workflowOverrideParams)

/-- The in-place placement/resource overwrite block of `Reconcile`
(ansibletest_controller.go:217-233): when the target step is inside the
workflow list, each of `NodeSelector`, `Tolerations`, `SELinuxLevel` and
`Resources` whose step override pointer is non-nil replaces the base field
of the spec; `none` models the panic of a negative in-range index. -/
def applyPlacementOverrides (spec : AnsibleTestSpec) (nextWorkflowStep : Int) :
    Option AnsibleTestSpec :=
  if nextWorkflowStep < (spec.Workflow.length : Int) then
    if nextWorkflowStep < 0 then none
    else
      match spec.Workflow[nextWorkflowStep.toNat]? with
      | none => none
      | some w =>
        some { spec with
          NodeSelector := match w.NodeSelector with
            | some v => v
            | none => spec.NodeSelector
          Tolerations := match w.Tolerations with
            | some v => v
            | none => spec.Tolerations
          SELinuxLevel := match w.SELinuxLevel with
            | some v => v
            | none => spec.SELinuxLevel
          Resources := match w.Resources with
            | some v => v
            | none => spec.Resources }
  else
    some spec

/-! ## Status conditions

The condition bookkeeping below is the lib-common `condition` module, which
is an external collaborator of the controller; every definition in this
section is modelled from the spec (§3 WorkflowStatus, §4.1 deferred
status-patch step).  A `Conditions` value is the ordered list held in
`instance.Status.Conditions`. -/

/-- `corev1.ConditionStatus`: True / False / Unknown. -/
inductive CondStatus where
  | ctrue
  | cfalse
  | cunknown
deriving DecidableEq

/-- Modelled from the spec: one named status Condition with
status/reason/severity/message/lastTransitionTime (lib-common
`condition.Condition`); the timestamp is an abstract `Nat`. -/
structure Cond where
  ctype : String
  status : CondStatus
  reason : String
  severity : String
  message : String
  ltt : Nat
deriving DecidableEq

def ReadyCondition : String := "Ready"
def ServiceConfigReadyCondition : String := "ServiceConfigReady"
def DeploymentReadyCondition : String := "DeploymentReady"

def InitReason : String := "Init"
def ReadyReason : String := "Ready"
def ErrorReason : String := "Error"
def RequestedReason : String := "Requested"

def SeverityNone : String := "None"
def SeverityWarning : String := "Warning"
def SeverityInfo : String := "Info"

def ReadyMessage : String := "Setup complete"
def ReadyInitMessage : String := "Setup started"
def ServiceConfigReadyMessage : String := "Service config create completed"
def DeploymentReadyInitMessage : String := "Deployment not started"
def DeploymentReadyMessage : String := "Deployment completed"

/-- Modelled from the spec: `condition.DeploymentReadyErrorMessage` formatted
with the submission error (`err.Error()`). -/
def DeploymentReadyErrorMessage (e : String) : String :=
  "Deployment error occurred " ++ e

def DeploymentReadyRunningMessage : String := "Deployment in progress"

/-- Modelled from the spec: `Conditions.Get` — the condition with the given
type, if present. -/
def getCond : List Cond → String → Option Cond
  | [], _ => none
  | c :: cs, t => if c.ctype = t then some c else getCond cs t

/-- Modelled from the spec: `Conditions.Set` — upsert by condition type;
the `lastTransitionTime` of the stored condition is kept from the existing
entry when the status value does not change and is set to `now` otherwise
("a Condition's lastTransitionTime changes only when its status value
changes"). -/
def setCond : List Cond → Cond → Nat → List Cond
  | [], c, now => [{ c with ltt := now }]
  | x :: xs, c, now =>
      if x.ctype = c.ctype then
        (if x.status = c.status then { c with ltt := x.ltt } else { c with ltt := now }) :: xs
      else
        x :: setCond xs c now

/-- Modelled from the spec: `Conditions.MarkTrue` — store the condition of
the given type as True with the Ready reason and the given message. -/
def markTrue (cs : List Cond) (t msg : String) (now : Nat) : List Cond :=
  setCond cs { ctype := t, status := .ctrue, reason := ReadyReason,
               severity := SeverityNone, message := msg, ltt := 0 } now

/-- Modelled from the spec: `condition.FalseCondition` stored via `Set`. -/
def setFalseCond (cs : List Cond) (t reason severity msg : String) (now : Nat) : List Cond :=
  setCond cs { ctype := t, status := .cfalse, reason := reason,
               severity := severity, message := msg, ltt := 0 } now

/-- Modelled from the spec: `condition.UnknownCondition`. -/
def unknownCondition (t reason msg : String) (now : Nat) : Cond :=
  { ctype := t, status := .cunknown, reason := reason, severity := SeverityNone,
    message := msg, ltt := now }

/-- Modelled from the spec: `Conditions.AllSubConditionIsTrue` — every
condition other than Ready has status True. -/
def AllSubConditionIsTrue (cs : List Cond) : Bool :=
  cs.all fun c => decide (c.ctype = ReadyCondition ∨ c.status = CondStatus.ctrue)

/-- The restore of one condition's `lastTransitionTime` from the saved
snapshot, when its status did not change. -/
def restoreOne (saved : List Cond) (c : Cond) : Cond :=
  match getCond saved c.ctype with
  | some s => if s.status = c.status then { c with ltt := s.ltt } else c
  | none => c

/-- Modelled from the spec: `condition.RestoreLastTransitionTimes` — each
condition whose status equals the status of the saved condition of the same
type gets the saved `lastTransitionTime` back. -/
def restoreLTT (cs saved : List Cond) : List Cond :=
  cs.map (restoreOne saved)

/-- Modelled from the spec: `Conditions.IsUnknown` — the condition of the
given type is Unknown (an absent condition counts as unknown). -/
def condIsUnknown (cs : List Cond) (t : String) : Bool :=
  match getCond cs t with
  | some c => decide (c.status = CondStatus.cunknown)
  | none => true

/-- The first sub-condition (type ≠ Ready) whose status is not True. -/
def firstNonReadySub (cs : List Cond) : Option Cond :=
  cs.find? fun c => decide (c.ctype ≠ ReadyCondition ∧ c.status ≠ CondStatus.ctrue)

/-- Modelled from the spec: `Conditions.Mirror` — a condition of the target
type copying the first non-ready sub-condition (§4.1(c)). -/
def mirrorCond (cs : List Cond) (t : String) : Option Cond :=
  (firstNonReadySub cs).map fun c => { c with ctype := t }

/-- The deferred status-patch step of `Reconcile`
(ansibletest_controller.go:98-113), applied to the conditions as left by the
body and the pre-reconcile snapshot: (a) mark Ready True when all
sub-conditions are True, (b) restore the saved lastTransitionTimes of
status-unchanged conditions, (c) while Ready is Unknown, set the mirror of
the first non-ready sub-condition onto Ready. -/
def deferPatch (cs saved : List Cond) (now : Nat) : List Cond :=
  let cs1 := if AllSubConditionIsTrue cs then markTrue cs ReadyCondition ReadyMessage now else cs
  let cs2 := restoreLTT cs1 saved
  if condIsUnknown cs2 ReadyCondition then
    match mirrorCond cs2 ReadyCondition with
    | some m => setCond cs2 m now
    | none => cs2
  else
    cs2

/-- The status of the condition of type `t`, if present. -/
def statusOf (cs : List Cond) (t : String) : Option CondStatus :=
  (getCond cs t).map (·.status)

/-! ## The Reconcile driver

`Reconcile` (ansibletest_controller.go:61-275) is embedded as a pure
function over a `ReconcileEnv` that records the outcome of every external
collaborator call of one invocation (instance fetch, helper creation,
`NextAction`, lock acquire/release, PVC ensure, secret probe, image lookup,
pod submission, status patch).  Those collaborators live outside the
embedded source file and are modelled from the spec as environment
outcomes.  The result `none` models a Go runtime panic. -/

/-- Modelled from the spec: the closed action set returned by `NextAction`
(§4.2). -/
inductive NextActionType where
  | Failure
  | Wait
  | EndTesting
  | CreateFirstPod
  | CreateNextPod
deriving DecidableEq

/-- `ctrl.Result`; only `RequeueAfter` is ever set by this controller. -/
structure CtrlResult where
  RequeueAfter : Nat := 0
deriving DecidableEq

/-- Modelled from the spec: the fixed requeue interval constant (§6
"re-check after one fixed interval constant"), in seconds. -/
def RequeueAfterValue : Nat := 60

/-- Modelled from the spec: the name of the cluster-wide exclusive lock. -/
def testOperatorLockName : String := "test-operator-lock"

/-- Modelled from the spec: log message constants of the controllers
package (not under the embedded sources); the exact wording is irrelevant
to the claims, only which message is emitted on which path. -/
def InfoWaitingOnPod : String := "Waiting on either pod to finish or release of the lock"

def InfoCanNotReleaseLock (lockName : String) : String :=
  "Cannot release the lock " ++ lockName

def InfoCanNotAcquireLock (lockName : String) : String :=
  "Cannot acquire the lock " ++ lockName

def InfoCreatingFirstPod (step : Int) : String :=
  "Creating first test pod for step " ++ toString step

def InfoCreatingNextPod (step : Int) : String :=
  "Creating next test pod for step " ++ toString step

def InfoTestingCompleted : String := "Testing completed"

def InfoReconciledSuccessfully : String := "Reconciled Service successfully"

def ErrConfirmLockOwnership (lockName : String) : String :=
  "Can not confirm ownership of the lock " ++ lockName

/-- Outcome of the initial `Client.Get` of the instance. -/
inductive GetRes where
  | found
  | notFound
  | getFailed (e : String)
deriving DecidableEq

/-- The workflow instance as seen by one reconciliation: its spec and its
`Status.Conditions` (`none` models the nil list of a first-seen
instance). -/
structure AnsibleTest where
  Name : String
  Spec : AnsibleTestSpec
  Conditions : Option (List Cond)
deriving DecidableEq

/-- Modelled from the spec: outcomes of every external collaborator call of
one `Reconcile` invocation.  Errors are `Option String` (`none` = nil).
`lockAcquired`/`lockReleased` are the boolean results of
`AcquireLock`/`ReleaseLock`; at most one release and one acquire call
happens per invocation, so one field each suffices. -/
structure ReconcileEnv where
  getRes : GetRes
  helperErr : Option String
  nextAction : NextActionType
  nextWorkflowStep : Int
  nextActionErr : Option String
  lockAcquired : Bool
  acquireErr : Option String
  lockReleased : Bool
  releaseErr : Option String
  pvcResult : CtrlResult
  pvcErr : Option String
  mountCerts : Bool
  containerImageErr : Option String
  podResult : CtrlResult
  podErr : Option String
  patchErr : Option String
  now : Nat
deriving DecidableEq

/-- The externally observable outcome of one `Reconcile` invocation:
returned result/error, the patched conditions, the instance spec after the
in-place placement overwrite, which side-effecting collaborators were
invoked, whether this instance holds the lock afterwards, and the emitted
log messages. -/
structure ReconcileOutcome where
  result : CtrlResult
  err : Option String := none
  conditions : Option (List Cond)
  spec : AnsibleTestSpec
  acquireAttempted : Bool := false
  releaseAttempted : Bool := false
  pvcAttempted : Bool := false
  podCreateAttempted : Bool := false
  holdsLockAfter : Bool
  infoLogs : List String := []
  errorLogs : List String := []
deriving DecidableEq

/-- Intermediate outcome of the `Reconcile` body, before the deferred
status patch runs. -/
structure BodyOut where
  result : CtrlResult
  err : Option String := none
  conds : List Cond
  spec : AnsibleTestSpec
  acquireAttempted : Bool := false
  releaseAttempted : Bool := false
  pvcAttempted : Bool := false
  podCreateAttempted : Bool := false
  holdsLockAfter : Bool
  infoLogs : List String := []
  errorLogs : List String := []
deriving DecidableEq

/-- The shared pod-creation path of `Reconcile`
(ansibletest_controller.go:181-274), entered from `CreateFirstPod` or
`CreateNextPod` after a successful lock acquisition: ensure the logs PVC,
mark ServiceConfigReady, resolve the step parameters (`PrepareAnsibleEnv`,
`Privileged`, container image), apply the in-place placement overrides,
submit the pod, and handle submission failure (release the lock, mark
DeploymentReady False/Error) or a non-terminal submission result (mark
DeploymentReady False/Requested). -/
def createPath (env : ReconcileEnv) (inst : AnsibleTest) (conds0 : List Cond)
    (infoLogs0 : List String) (errorLogs0 : List String) : Option BodyOut :=
  let base : BodyOut :=
    { result := {}
      conds := conds0
      spec := inst.Spec
      acquireAttempted := true
      pvcAttempted := true
      holdsLockAfter := true
      infoLogs := infoLogs0
      errorLogs := errorLogs0 }
  match env.pvcErr with
  | some e =>
    some { base with
      result := env.pvcResult
      err := some e }
  | none =>
    if env.pvcResult ≠ {} then
      some { base with result := env.pvcResult }
    else
      let conds1 := markTrue conds0 ServiceConfigReadyCondition ServiceConfigReadyMessage env.now
      match PrepareAnsibleEnv inst.Spec env.nextWorkflowStep with
      | none => none
      | some _ =>
        match (OverwriteAnsibleWithWorkflow inst.Spec "Privileged" "pbool" env.nextWorkflowStep).bind assertBool with
        | none => none
        | some _privileged =>
          match env.containerImageErr with
          | some e =>
            some { base with
              conds := conds1
              err := some e }
          | none =>
            match applyPlacementOverrides inst.Spec env.nextWorkflowStep with
            | none => none
            | some spec1 =>
              let base1 := { base with
                conds := conds1
                spec := spec1
                podCreateAttempted := true }
              match env.podErr with
              | some e =>
                if !env.lockReleased then
                  some { base1 with
                    result := {}
                    err := env.releaseErr
                    releaseAttempted := true }
                else
                  some { base1 with
                    result := env.podResult
                    err := some e
                    conds := setFalseCond conds1 DeploymentReadyCondition ErrorReason
                               SeverityWarning (DeploymentReadyErrorMessage e) env.now
                    releaseAttempted := true
                    holdsLockAfter := false }
              | none =>
                if env.podResult ≠ {} then
                  some { base1 with
                    result := env.podResult
                    conds := setFalseCond conds1 DeploymentReadyCondition RequestedReason
                               SeverityInfo DeploymentReadyRunningMessage env.now }
                else
                  some { base1 with
                    result := {}
                    infoLogs := infoLogs0 ++ [InfoReconciledSuccessfully] }

/-- The `Reconcile` body between helper creation and the deferred status
patch (ansibletest_controller.go:86-274): first-seen initialization, then
the `NextAction` switch. -/
def reconcileBody (env : ReconcileEnv) (inst : AnsibleTest) (holdsLock : Bool) : Option BodyOut :=
  match inst.Conditions with
  | none =>
    some { result := {}
           conds := [unknownCondition ReadyCondition InitReason ReadyInitMessage env.now,
                     unknownCondition ServiceConfigReadyCondition InitReason ServiceConfigReadyMessage env.now,
                     unknownCondition DeploymentReadyCondition InitReason DeploymentReadyInitMessage env.now]
           spec := inst.Spec
           holdsLockAfter := holdsLock }
  | some conds0 =>
    match env.nextAction with
    | .Failure =>
        some { result := {}
               err := env.nextActionErr
               conds := conds0
               spec := inst.Spec
               holdsLockAfter := holdsLock }
    | .Wait =>
        some { result := { RequeueAfter := RequeueAfterValue }
               conds := conds0
               spec := inst.Spec
               holdsLockAfter := holdsLock
               infoLogs := [InfoWaitingOnPod] }
    | .EndTesting =>
        if !env.lockReleased then
          some { result := { RequeueAfter := RequeueAfterValue }
                 err := env.releaseErr
                 conds := conds0
                 spec := inst.Spec
                 releaseAttempted := true
                 holdsLockAfter := holdsLock
                 infoLogs := [InfoCanNotReleaseLock testOperatorLockName] }
        else
          some { result := {}
                 conds := markTrue conds0 DeploymentReadyCondition DeploymentReadyMessage env.now
                 spec := inst.Spec
                 releaseAttempted := true
                 holdsLockAfter := false
                 infoLogs := [InfoTestingCompleted] }
    | .CreateFirstPod =>
        if !env.lockAcquired then
          some { result := { RequeueAfter := RequeueAfterValue }
                 err := env.acquireErr
                 conds := conds0
                 spec := inst.Spec
                 acquireAttempted := true
                 holdsLockAfter := holdsLock
                 infoLogs := [InfoCanNotAcquireLock testOperatorLockName] }
        else
          createPath env inst conds0 [InfoCreatingFirstPod env.nextWorkflowStep] []
    | .CreateNextPod =>
        if !env.lockAcquired then
          some { result := { RequeueAfter := RequeueAfterValue }
                 err := env.acquireErr
                 conds := conds0
                 spec := inst.Spec
                 acquireAttempted := true
                 holdsLockAfter := holdsLock
                 errorLogs := [ErrConfirmLockOwnership testOperatorLockName] }
        else
          createPath env inst conds0 [InfoCreatingNextPod env.nextWorkflowStep] []

/-- `Reconcile` (ansibletest_controller.go:61-275): instance fetch, helper
creation, the body, and the deferred status patch on every body exit (with
a failed `PatchInstance` replacing the returned error).  `holdsLock` is
whether this instance holds the exclusive lock on entry; the outcome tracks
it through the lock calls of this invocation. -/
def Reconcile (env : ReconcileEnv) (inst : AnsibleTest) (holdsLock : Bool) :
    Option ReconcileOutcome :=
  match env.getRes with
  | .notFound =>
      some { result := {}
             conditions := inst.Conditions
             spec := inst.Spec
             holdsLockAfter := holdsLock }
  | .getFailed e =>
      some { result := {}
             err := some e
             conditions := inst.Conditions
             spec := inst.Spec
             holdsLockAfter := holdsLock }
  | .found =>
    match env.helperErr with
    | some e =>
        some { result := {}
               err := some e
               conditions := inst.Conditions
               spec := inst.Spec
               holdsLockAfter := holdsLock }
    | none =>
      let saved := inst.Conditions.getD []
      (reconcileBody env inst holdsLock).map fun b =>
        { result := b.result
          err := match env.patchErr with
            | some e => some e
            | none => b.err
          conditions := some (deferPatch b.conds saved env.now)
          spec := b.spec
          acquireAttempted := b.acquireAttempted
          releaseAttempted := b.releaseAttempted
          pvcAttempted := b.pvcAttempted
          podCreateAttempted := b.podCreateAttempted
          holdsLockAfter := b.holdsLockAfter
          infoLogs := b.infoLogs
          errorLogs := b.errorLogs }

/-! ## Helper lemmas about the condition operations -/

/-- The value of the view of a condition used by the frame lemmas: all
fields except the `lastTransitionTime`. -/
def condView (cs : List Cond) (t : String) : Option (CondStatus × String × String × String) :=
  (getCond cs t).map fun c => (c.status, c.reason, c.severity, c.message)

/-- Status lookup through an optional condition list. -/
def statusOfOpt (oc : Option (List Cond)) (t : String) : Option CondStatus :=
  oc.bind fun cs => statusOf cs t

lemma restoreOne_ctype (saved : List Cond) (c : Cond) :
    (restoreOne saved c).ctype = c.ctype := by
  unfold restoreOne
  cases getCond saved c.ctype with
  | none => rfl
  | some s =>
    by_cases h : s.status = c.status <;> simp [h]

lemma restoreOne_status (saved : List Cond) (c : Cond) :
    (restoreOne saved c).status = c.status := by
  unfold restoreOne
  cases getCond saved c.ctype with
  | none => rfl
  | some s =>
    by_cases h : s.status = c.status <;> simp [h]

lemma restoreOne_reason (saved : List Cond) (c : Cond) :
    (restoreOne saved c).reason = c.reason := by
  unfold restoreOne
  cases getCond saved c.ctype with
  | none => rfl
  | some s =>
    by_cases h : s.status = c.status <;> simp [h]

lemma restoreOne_severity (saved : List Cond) (c : Cond) :
    (restoreOne saved c).severity = c.severity := by
  unfold restoreOne
  cases getCond saved c.ctype with
  | none => rfl
  | some s =>
    by_cases h : s.status = c.status <;> simp [h]

lemma restoreOne_message (saved : List Cond) (c : Cond) :
    (restoreOne saved c).message = c.message := by
  unfold restoreOne
  cases getCond saved c.ctype with
  | none => rfl
  | some s =>
    by_cases h : s.status = c.status <;> simp [h]

lemma getCond_eq_type {cs : List Cond} {t : String} {c : Cond}
    (h : getCond cs t = some c) : c.ctype = t := by
  induction cs with
  | nil => simp [getCond] at h
  | cons x xs ih =>
    simp only [getCond] at h
    split at h
    · cases h
      assumption
    · exact ih h

lemma getCond_restoreLTT (cs saved : List Cond) (t : String) :
    getCond (restoreLTT cs saved) t = (getCond cs t).map (restoreOne saved) := by
  induction cs with
  | nil => rfl
  | cons x xs ih =>
    simp only [restoreLTT, List.map, getCond, restoreOne_ctype] at *
    by_cases h : x.ctype = t
    · simp [h]
    · simp [h, ih]

lemma statusOf_restoreLTT (cs saved : List Cond) (t : String) :
    statusOf (restoreLTT cs saved) t = statusOf cs t := by
  unfold statusOf
  rw [getCond_restoreLTT]
  cases getCond cs t with
  | none => rfl
  | some c => simp [restoreOne_status]

lemma condView_restoreLTT (cs saved : List Cond) (t : String) :
    condView (restoreLTT cs saved) t = condView cs t := by
  unfold condView
  rw [getCond_restoreLTT]
  cases getCond cs t with
  | none => rfl
  | some c =>
    simp [restoreOne_status, restoreOne_reason, restoreOne_severity, restoreOne_message]

lemma getCond_setCond_ne {t : String} {c : Cond} (cs : List Cond) (now : Nat)
    (h : t ≠ c.ctype) : getCond (setCond cs c now) t = getCond cs t := by
  induction cs with
  | nil =>
    simp only [setCond, getCond]
    rw [if_neg]
    exact fun he => h he.symm
  | cons x xs ih =>
    simp only [setCond]
    by_cases hx : x.ctype = c.ctype
    · rw [if_pos hx]
      by_cases hs : x.status = c.status
      · rw [if_pos hs]
        simp only [getCond]
        rw [if_neg (fun he => h he.symm), if_neg (by rw [hx]; exact fun he => h he.symm)]
      · rw [if_neg hs]
        simp only [getCond]
        rw [if_neg (fun he => h he.symm), if_neg (by rw [hx]; exact fun he => h he.symm)]
    · rw [if_neg hx]
      simp only [getCond]
      by_cases hxt : x.ctype = t
      · rw [if_pos hxt, if_pos hxt]
      · rw [if_neg hxt, if_neg hxt]
        exact ih

lemma getCond_setCond_self (cs : List Cond) (c : Cond) (now : Nat) :
    getCond (setCond cs c now) c.ctype =
      some { c with ltt := match getCond cs c.ctype with
                           | some old => if old.status = c.status then old.ltt else now
                           | none => now } := by
  induction cs with
  | nil => simp [setCond, getCond]
  | cons x xs ih =>
    by_cases hx : x.ctype = c.ctype
    · by_cases hs : x.status = c.status
      · simp [setCond, getCond, hx, hs]
      · simp [setCond, getCond, hx, hs]
    · simp [setCond, getCond, hx, ih]

lemma statusOf_setCond_self (cs : List Cond) (c : Cond) (now : Nat) :
    statusOf (setCond cs c now) c.ctype = some c.status := by
  unfold statusOf
  rw [getCond_setCond_self]
  rfl


lemma firstNonReadySub_restoreLTT (cs saved : List Cond) :
    firstNonReadySub (restoreLTT cs saved) = (firstNonReadySub cs).map (restoreOne saved) := by
  induction cs with
  | nil => rfl
  | cons x xs ih =>
    simp only [firstNonReadySub, restoreLTT, List.map, List.find?] at *
    by_cases h : x.ctype ≠ ReadyCondition ∧ x.status ≠ CondStatus.ctrue
    · rw [decide_eq_true h,
        decide_eq_true (by rw [restoreOne_ctype, restoreOne_status]; exact h)]
      rfl
    · rw [decide_eq_false h,
        decide_eq_false (by rw [restoreOne_ctype, restoreOne_status]; exact h)]
      exact ih

lemma firstNonReadySub_some {cs : List Cond} {c : Cond}
    (h : firstNonReadySub cs = some c) :
    c.ctype ≠ ReadyCondition ∧ c.status ≠ CondStatus.ctrue := by
  have := List.find?_some h
  exact of_decide_eq_true this

lemma allSub_false_first {cs : List Cond}
    (h : AllSubConditionIsTrue cs = false) :
    ∃ c, firstNonReadySub cs = some c := by
  induction cs with
  | nil => simp [AllSubConditionIsTrue] at h
  | cons x xs ih =>
    simp only [AllSubConditionIsTrue, List.all_cons, Bool.and_eq_false_iff] at h
    by_cases hx : x.ctype ≠ ReadyCondition ∧ x.status ≠ CondStatus.ctrue
    · exact ⟨x, by simp only [firstNonReadySub, List.find?, decide_eq_true hx]⟩
    · have hxt : (decide (x.ctype = ReadyCondition ∨ x.status = CondStatus.ctrue)) = true := by
        rw [Decidable.not_and_iff_or_not] at hx
        simp only [not_ne_iff] at hx
        exact decide_eq_true hx
      rcases h with h | h
      · rw [hxt] at h
        cases h
      · obtain ⟨c, hc⟩ := ih h
        refine ⟨c, ?_⟩
        simp only [firstNonReadySub, List.find?, decide_eq_false hx] at hc ⊢
        exact hc

lemma allSub_true_sub {cs : List Cond} (h : AllSubConditionIsTrue cs = true)
    {c : Cond} (hc : c ∈ cs) (hne : c.ctype ≠ ReadyCondition) :
    c.status = CondStatus.ctrue := by
  simp only [AllSubConditionIsTrue, List.all_eq_true] at h
  have := of_decide_eq_true (h c hc)
  rcases this with h1 | h1
  · exact absurd h1 hne
  · exact h1

lemma condIsUnknown_eq_true_iff (cs : List Cond) (t : String) :
    condIsUnknown cs t = true ↔
      (statusOf cs t = none ∨ statusOf cs t = some CondStatus.cunknown) := by
  unfold condIsUnknown statusOf
  cases getCond cs t with
  | none => simp
  | some c => simp

lemma condView_setCond_ne {t : String} {c : Cond} (cs : List Cond) (now : Nat)
    (h : t ≠ c.ctype) : condView (setCond cs c now) t = condView cs t := by
  unfold condView
  rw [getCond_setCond_ne cs now h]

lemma statusOf_markTrue_self (cs : List Cond) (t msg : String) (now : Nat) :
    statusOf (markTrue cs t msg now) t = some CondStatus.ctrue :=
  statusOf_setCond_self cs _ now

lemma statusOf_eq_condView (cs : List Cond) (t : String) :
    statusOf cs t = (condView cs t).map (fun p => p.1) := by
  unfold statusOf condView
  cases getCond cs t <;> rfl

lemma condView_markTrue_ne {t' t : String} (cs : List Cond) (msg : String) (now : Nat)
    (h : t' ≠ t) : condView (markTrue cs t msg now) t' = condView cs t' :=
  condView_setCond_ne cs now h

lemma condView_mirrorStage (cs2 : List Cond) (now : Nat) {t : String}
    (ht : t ≠ ReadyCondition) :
    condView (if condIsUnknown cs2 ReadyCondition = true then
        match mirrorCond cs2 ReadyCondition with
        | some m => setCond cs2 m now
        | none => cs2
      else cs2) t = condView cs2 t := by
  split
  · cases hm : mirrorCond cs2 ReadyCondition with
    | none => simp only [hm]
    | some m =>
      simp only [hm]
      simp only [mirrorCond] at hm
      obtain ⟨c0, hc0, hmm⟩ := Option.map_eq_some'.mp hm
      subst hmm
      exact condView_setCond_ne cs2 now ht
  · rfl

/-- The deferred status patch changes no sub-condition (type ≠ Ready):
status, reason, severity and message are exactly those left by the body. -/
lemma condView_deferPatch_ne (cs saved : List Cond) (now : Nat) {t : String}
    (ht : t ≠ ReadyCondition) :
    condView (deferPatch cs saved now) t = condView cs t := by
  simp only [deferPatch]
  rw [condView_mirrorStage _ now ht, condView_restoreLTT]
  split
  · exact condView_markTrue_ne cs ReadyMessage now ht
  · rfl

lemma statusOf_deferPatch_ne (cs saved : List Cond) (now : Nat) {t : String}
    (ht : t ≠ ReadyCondition) :
    statusOf (deferPatch cs saved now) t = statusOf cs t := by
  rw [statusOf_eq_condView, condView_deferPatch_ne cs saved now ht, ← statusOf_eq_condView]

lemma condIsUnknown_false_of {cs : List Cond} {t : String} {st : CondStatus}
    (h : statusOf cs t = some st) (hst : st ≠ CondStatus.cunknown) :
    condIsUnknown cs t = false := by
  cases hcu : condIsUnknown cs t with
  | false => rfl
  | true =>
    exfalso
    rcases (condIsUnknown_eq_true_iff cs t).mp hcu with h2 | h2
    · rw [h] at h2
      exact Option.noConfusion h2
    · rw [h] at h2
      injection h2 with h2
      exact hst h2

/-- When not all sub-conditions are True and Ready is Unknown (or absent),
the deferred patch stores onto Ready a copy of the first non-ready
sub-condition: same status, reason and message. -/
lemma deferPatch_mirror_core (cs saved : List Cond) (now : Nat)
    (hA : AllSubConditionIsTrue cs = false)
    (hu : statusOf cs ReadyCondition = none ∨ statusOf cs ReadyCondition = some CondStatus.cunknown) :
    ∃ c0 c', firstNonReadySub cs = some c0 ∧
      getCond (deferPatch cs saved now) ReadyCondition = some c' ∧
      c'.status = c0.status ∧ c'.reason = c0.reason ∧ c'.message = c0.message := by
  obtain ⟨c0, hc0⟩ := allSub_false_first hA
  have hcu : condIsUnknown (restoreLTT cs saved) ReadyCondition = true := by
    rw [condIsUnknown_eq_true_iff, statusOf_restoreLTT]
    exact hu
  have hm : mirrorCond (restoreLTT cs saved) ReadyCondition =
      some { restoreOne saved c0 with ctype := ReadyCondition } := by
    simp only [mirrorCond, firstNonReadySub_restoreLTT, hc0]
    rfl
  have hAne : ¬(AllSubConditionIsTrue cs = true) := by
    rw [hA]
    exact Bool.false_ne_true
  simp only [deferPatch]
  rw [if_neg hAne, hcu, if_pos rfl, hm]
  have hset := getCond_setCond_self (restoreLTT cs saved)
    { restoreOne saved c0 with ctype := ReadyCondition } now
  refine ⟨c0, _, hc0, hset, ?_, ?_, ?_⟩
  · simp [restoreOne_status]
  · simp [restoreOne_reason]
  · simp [restoreOne_message]

/-- The deferred patch leaves Ready with status True exactly when all
sub-conditions were True (it marks Ready) or Ready was already True. -/
lemma deferPatch_ready_true_iff (cs saved : List Cond) (now : Nat) :
    statusOf (deferPatch cs saved now) ReadyCondition = some CondStatus.ctrue ↔
      (AllSubConditionIsTrue cs = true ∨ statusOf cs ReadyCondition = some CondStatus.ctrue) := by
  by_cases hA : AllSubConditionIsTrue cs = true
  · have h2 : statusOf (restoreLTT (markTrue cs ReadyCondition ReadyMessage now) saved)
        ReadyCondition = some CondStatus.ctrue := by
      rw [statusOf_restoreLTT]
      exact statusOf_markTrue_self cs ReadyCondition ReadyMessage now
    have h3 := condIsUnknown_false_of h2 (by intro h; exact CondStatus.noConfusion h)
    simp only [deferPatch]
    rw [if_pos hA, h3]
    simp only [Bool.false_eq_true, if_false]
    exact iff_of_true h2 (Or.inl hA)
  · have hA' : AllSubConditionIsTrue cs = false := by
      cases hb : AllSubConditionIsTrue cs with
      | false => rfl
      | true => exact absurd hb hA
    rcases hr : statusOf cs ReadyCondition with _ | st
    · obtain ⟨c0, c', hc0, hget, hst, _, _⟩ :=
        deferPatch_mirror_core cs saved now hA' (Or.inl hr)
      refine iff_of_false ?_ ?_
      · intro h
        unfold statusOf at h
        rw [hget, Option.map_some'] at h
        injection h with h
        have h2 : c0.status = CondStatus.ctrue := by rw [← hst]; exact h
        exact (firstNonReadySub_some hc0).2 h2
      · rintro (h | h)
        · exact hA h
        · exact Option.noConfusion h
    · cases st with
      | ctrue =>
        have h2 : statusOf (restoreLTT cs saved) ReadyCondition = some CondStatus.ctrue := by
          rw [statusOf_restoreLTT]
          exact hr
        have h3 := condIsUnknown_false_of h2 (by intro h; exact CondStatus.noConfusion h)
        simp only [deferPatch]
        rw [if_neg hA, h3]
        simp only [Bool.false_eq_true, if_false]
        simp [h2]
      | cfalse =>
        have h2 : statusOf (restoreLTT cs saved) ReadyCondition = some CondStatus.cfalse := by
          rw [statusOf_restoreLTT]
          exact hr
        have h3 := condIsUnknown_false_of h2 (by intro h; exact CondStatus.noConfusion h)
        simp only [deferPatch]
        rw [if_neg hA, h3]
        simp only [Bool.false_eq_true, if_false]
        refine iff_of_false ?_ ?_
        · intro h
          rw [h2] at h
          injection h with h
          exact CondStatus.noConfusion h
        · rintro (h | h)
          · exact hA h
          · injection h with h
            exact CondStatus.noConfusion h
      | cunknown =>
        obtain ⟨c0, c', hc0, hget, hst, _, _⟩ :=
          deferPatch_mirror_core cs saved now hA' (Or.inr hr)
        refine iff_of_false ?_ ?_
        · intro h
          unfold statusOf at h
          rw [hget, Option.map_some'] at h
          injection h with h
          have h2 : c0.status = CondStatus.ctrue := by rw [← hst]; exact h
          exact (firstNonReadySub_some hc0).2 h2
        · rintro (h | h)
          · exact hA h
          · injection h with h
            exact CondStatus.noConfusion h

lemma restoreLTT_ltt (l saved : List Cond) {t : String} {s c : Cond}
    (hs : getCond saved t = some s) (hc : getCond (restoreLTT l saved) t = some c)
    (hst : c.status = s.status) : c.ltt = s.ltt := by
  rw [getCond_restoreLTT] at hc
  cases hg : getCond l t with
  | none =>
    rw [hg] at hc
    exact Option.noConfusion hc
  | some c0 =>
    rw [hg, Option.map_some'] at hc
    injection hc with hc
    have hty : c0.ctype = t := getCond_eq_type hg
    by_cases hss : s.status = c0.status
    · rw [← hc]
      show (restoreOne saved c0).ltt = s.ltt
      unfold restoreOne
      rw [hty, hs]
      dsimp only
      rw [if_pos hss]
    · exfalso
      apply hss
      rw [← hst, ← hc, restoreOne_status]

/-- The ltt rule of the setCond upsert, read off `getCond_setCond_self`. -/
lemma setCond_ltt_self (cs : List Cond) (c : Cond) (now : Nat) {c' : Cond}
    (hc : getCond (setCond cs c now) c.ctype = some c') :
    c'.ltt = match getCond cs c.ctype with
             | some old => if old.status = c.status then old.ltt else now
             | none => now := by
  rw [getCond_setCond_self] at hc
  injection hc with hc
  rw [← hc]

/-- Part (b) of the deferred patch: whenever a condition's status equals
its status in the pre-reconcile snapshot, its lastTransitionTime is the
snapshot one.  The hypothesis records that the body leaves Ready untouched
(or that the snapshot has no Ready yet), which holds on every Reconcile
path. -/
lemma deferPatch_ltt (cs saved : List Cond) (now : Nat)
    (hready : getCond saved ReadyCondition = none ∨
              getCond cs ReadyCondition = getCond saved ReadyCondition) :
    ∀ t s c, getCond saved t = some s → getCond (deferPatch cs saved now) t = some c →
      c.status = s.status → c.ltt = s.ltt := by
  intro t s c hs hc hst
  simp only [deferPatch] at hc
  by_cases hcu : condIsUnknown (restoreLTT (if AllSubConditionIsTrue cs = true then
      markTrue cs ReadyCondition ReadyMessage now else cs) saved) ReadyCondition = true
  · rw [if_pos hcu] at hc
    cases hm : mirrorCond (restoreLTT (if AllSubConditionIsTrue cs = true then
        markTrue cs ReadyCondition ReadyMessage now else cs) saved) ReadyCondition with
    | none =>
      rw [hm] at hc
      exact restoreLTT_ltt _ saved hs hc hst
    | some m =>
      rw [hm] at hc
      simp only [mirrorCond] at hm
      obtain ⟨c0, hc0, hmm⟩ := Option.map_eq_some'.mp hm
      -- the markTrue branch cannot reach the mirror stage
      have hA : AllSubConditionIsTrue cs = false := by
        cases hb : AllSubConditionIsTrue cs with
        | false => rfl
        | true =>
          exfalso
          rw [if_pos hb] at hcu
          have h2 : statusOf (restoreLTT (markTrue cs ReadyCondition ReadyMessage now) saved)
              ReadyCondition = some CondStatus.ctrue := by
            rw [statusOf_restoreLTT]
            exact statusOf_markTrue_self cs ReadyCondition ReadyMessage now
          rw [condIsUnknown_false_of h2 (by intro h; exact CondStatus.noConfusion h)] at hcu
          exact Bool.noConfusion hcu
      have hAne : ¬(AllSubConditionIsTrue cs = true) := by
        rw [hA]
        exact Bool.false_ne_true
      rw [if_neg hAne] at hc
      by_cases hty : t = ReadyCondition
      · -- the mirrored Ready condition itself
        rw [hty] at hs hc
        rcases hready with hnone | heq
        · rw [hs] at hnone
          exact Option.noConfusion hnone
        · -- the entry Ready equals the saved Ready s
          have hsty : s.ctype = ReadyCondition := getCond_eq_type hs
          have hres : getCond (restoreLTT cs saved) ReadyCondition = some s := by
            rw [getCond_restoreLTT, heq, hs, Option.map_some']
            have hone : restoreOne saved s = s := by
              unfold restoreOne
              rw [hsty, hs]
              dsimp only
              rw [if_pos rfl]
              rw [← hsty]
            rw [hone]
          have hmty : m.ctype = ReadyCondition := by rw [← hmm]
          rw [← hmty] at hc
          have hltt := setCond_ltt_self (restoreLTT cs saved) m now hc
          rw [hmty, hres] at hltt
          dsimp only at hltt
          have hcsta : c.status = m.status := by
            rw [getCond_setCond_self] at hc
            injection hc with hc
            rw [← hc]
          have hsm : s.status = m.status := by
            rw [← hst]
            exact hcsta
          rw [if_pos hsm] at hltt
          exact hltt
      · -- any other condition is untouched by the mirror step
        have hmty : m.ctype = ReadyCondition := by rw [← hmm]
        rw [getCond_setCond_ne _ now (by rw [hmty]; exact hty)] at hc
        exact restoreLTT_ltt _ saved hs hc hst
  · rw [if_neg hcu] at hc
    exact restoreLTT_ltt _ saved hs hc hst

/-! ## Helper lemmas about the override resolver -/

lemma overwrite_out_of_range (inst : AnsibleTestSpec) (name tag : String) (n : Int)
    (hn : (inst.Workflow.length : Int) ≤ n) :
    OverwriteAnsibleWithWorkflow inst name tag n = specFieldByName inst name := by
  unfold OverwriteAnsibleWithWorkflow
  rw [if_pos (by omega)]

lemma length_of_getElem? {l : List AnsibleTestWorkflowSpec} {i : Nat}
    {w : AnsibleTestWorkflowSpec} (hw : l[i]? = some w) : i < l.length := by
  by_contra hcon
  rw [List.getElem?_eq_none (Nat.le_of_not_lt hcon)] at hw
  exact Option.noConfusion hw

/-- The `"string"` dispatch of the resolver at an in-range step: a
non-empty override wins, an empty one falls back to the base value. -/
lemma overwrite_string_eq (inst : AnsibleTestSpec) (name : String) (n : Int)
    (hn : 0 ≤ n) {w : AnsibleTestWorkflowSpec} (hw : inst.Workflow[n.toNat]? = some w)
    {ov base : String}
    (hwf : workflowFieldByName w name = some (.gString ov))
    (hbase : specFieldByName inst name = some (.gString base)) :
    OverwriteAnsibleWithWorkflow inst name "string" n =
      some (.gString (if ov = "" then base else ov)) := by
  have hlen : n.toNat < inst.Workflow.length := length_of_getElem? hw
  unfold OverwriteAnsibleWithWorkflow
  rw [if_neg (by omega), hbase]
  dsimp only
  rw [if_neg (by omega), hw]
  dsimp only
  rw [hwf]
  by_cases hov : ov = ""
  · simp [hov]
  · simp [hov]

/-- The `"pbool"` dispatch of the resolver at an in-range step: a non-nil
`*bool` override wins, a nil one falls back to the base boolean. -/
lemma overwrite_pbool_eq (inst : AnsibleTestSpec) (name : String) (n : Int)
    (hn : 0 ≤ n) {w : AnsibleTestWorkflowSpec} (hw : inst.Workflow[n.toNat]? = some w)
    {p : Option Bool} {b : Bool}
    (hwf : workflowFieldByName w name = some (.gPBool p))
    (hbase : specFieldByName inst name = some (.gBool b)) :
    OverwriteAnsibleWithWorkflow inst name "pbool" n = some (.gBool (p.getD b)) := by
  have hlen : n.toNat < inst.Workflow.length := length_of_getElem? hw
  unfold OverwriteAnsibleWithWorkflow
  rw [if_neg (by omega), hbase]
  dsimp only
  rw [if_neg (by omega), hw]
  dsimp only
  rw [hwf]
  cases p with
  | none => simp
  | some v => simp

lemma overwrite_string_total (inst : AnsibleTestSpec) (name : String) (n : Int) (hn : 0 ≤ n)
    (hbase : ∃ s, specFieldByName inst name = some (.gString s))
    (hwf : ∀ w, ∃ s, workflowFieldByName w name = some (.gString s)) :
    ∃ s, OverwriteAnsibleWithWorkflow inst name "string" n = some (.gString s) := by
  obtain ⟨base, hbase⟩ := hbase
  by_cases hr : (inst.Workflow.length : Int) ≤ n
  · exact ⟨base, by rw [overwrite_out_of_range inst name _ n hr]; exact hbase⟩
  · have hlen : n.toNat < inst.Workflow.length := by omega
    obtain ⟨w, hw⟩ : ∃ w, inst.Workflow[n.toNat]? = some w :=
      ⟨_, List.getElem?_eq_getElem hlen⟩
    obtain ⟨ov, hwf'⟩ := hwf w
    exact ⟨if ov = "" then base else ov, overwrite_string_eq inst name n hn hw hwf' hbase⟩

lemma overwrite_pbool_total (inst : AnsibleTestSpec) (name : String) (n : Int) (hn : 0 ≤ n)
    (hbase : ∃ b, specFieldByName inst name = some (.gBool b))
    (hwf : ∀ w, ∃ p, workflowFieldByName w name = some (.gPBool p)) :
    ∃ b, OverwriteAnsibleWithWorkflow inst name "pbool" n = some (.gBool b) := by
  obtain ⟨base, hbase⟩ := hbase
  by_cases hr : (inst.Workflow.length : Int) ≤ n
  · exact ⟨base, by rw [overwrite_out_of_range inst name _ n hr]; exact hbase⟩
  · have hlen : n.toNat < inst.Workflow.length := by omega
    obtain ⟨w, hw⟩ : ∃ w, inst.Workflow[n.toNat]? = some w :=
      ⟨_, List.getElem?_eq_getElem hlen⟩
    obtain ⟨p, hwf'⟩ := hwf w
    exact ⟨p.getD base, overwrite_pbool_eq inst name n hn hw hwf' hbase⟩

/-- Every resolution performed by `PrepareAnsibleEnv` succeeds at every
step index ≥ 0: no caller type assertion can fail. -/
lemma PrepareAnsibleEnv_isSome (spec : AnsibleTestSpec) (n : Int) (hn : 0 ≤ n) :
    (PrepareAnsibleEnv spec n).isSome = true := by
  obtain ⟨s1, h1⟩ := overwrite_string_total spec "WorkloadSSHKeySecretName" n hn
    ⟨_, rfl⟩ (fun w => ⟨_, rfl⟩)
  obtain ⟨s2, h2⟩ := overwrite_string_total spec "ComputesSSHKeySecretName" n hn
    ⟨_, rfl⟩ (fun w => ⟨_, rfl⟩)
  obtain ⟨s3, h3⟩ := overwrite_string_total spec "ContainerImage" n hn
    ⟨_, rfl⟩ (fun w => ⟨_, rfl⟩)
  obtain ⟨b, hb⟩ := overwrite_pbool_total spec "Debug" n hn
    ⟨_, rfl⟩ (fun w => ⟨_, rfl⟩)
  obtain ⟨s4, h4⟩ := overwrite_string_total spec "AnsibleExtraVars" n hn
    ⟨_, rfl⟩ (fun w => ⟨_, rfl⟩)
  obtain ⟨s5, h5⟩ := overwrite_string_total spec "AnsibleVarFiles" n hn
    ⟨_, rfl⟩ (fun w => ⟨_, rfl⟩)
  obtain ⟨s6, h6⟩ := overwrite_string_total spec "AnsibleInventory" n hn
    ⟨_, rfl⟩ (fun w => ⟨_, rfl⟩)
  obtain ⟨s7, h7⟩ := overwrite_string_total spec "AnsibleGitRepo" n hn
    ⟨_, rfl⟩ (fun w => ⟨_, rfl⟩)
  obtain ⟨s8, h8⟩ := overwrite_string_total spec "AnsiblePlaybookPath" n hn
    ⟨_, rfl⟩ (fun w => ⟨_, rfl⟩)
  obtain ⟨s9, h9⟩ := overwrite_string_total spec "AnsibleCollections" n hn
    ⟨_, rfl⟩ (fun w => ⟨_, rfl⟩)
  simp [PrepareAnsibleEnv, h1, h2, h3, h4, h5, h6, h7, h8, h9, hb,
    assertString, assertBool]

/-- The `Privileged` resolution of the pod-creation path succeeds at every
step index ≥ 0. -/
lemma privileged_isSome (spec : AnsibleTestSpec) (n : Int) (hn : 0 ≤ n) :
    ∃ b, (OverwriteAnsibleWithWorkflow spec "Privileged" "pbool" n).bind assertBool = some b := by
  obtain ⟨b, hb⟩ := overwrite_pbool_total spec "Privileged" n hn
    ⟨_, rfl⟩ (fun w => ⟨_, rfl⟩)
  exact ⟨b, by rw [hb]; rfl⟩

lemma applyPlacementOverrides_isSome (spec : AnsibleTestSpec) (n : Int) (hn : 0 ≤ n) :
    (applyPlacementOverrides spec n).isSome = true := by
  unfold applyPlacementOverrides
  by_cases h : n < (spec.Workflow.length : Int)
  · rw [if_pos h, if_neg (by omega)]
    have hlen : n.toNat < spec.Workflow.length := by omega
    rw [List.getElem?_eq_getElem hlen]
    rfl
  · rw [if_neg h]
    rfl

/-! ## Concrete values used by witnesses and counterexamples -/

/-- A workflow override step with every parameter unset. -/
def emptyStep : AnsibleTestWorkflowSpec :=
  { ContainerImage := ""
    WorkloadSSHKeySecretName := ""
    ComputesSSHKeySecretName := ""
    AnsibleExtraVars := ""
    AnsibleVarFiles := ""
    AnsibleInventory := ""
    AnsibleGitRepo := ""
    AnsiblePlaybookPath := ""
    AnsibleCollections := ""
    Privileged := none
    Debug := none
    NodeSelector := none
    Tolerations := none
    SELinuxLevel := none
    Resources := none }

/-- A base spec with an empty workflow (scenario A shape). -/
def baseSpec : AnsibleTestSpec :=
  { ContainerImage := "default:v1"
    WorkloadSSHKeySecretName := ""
    ComputesSSHKeySecretName := ""
    AnsibleExtraVars := ""
    AnsibleVarFiles := ""
    AnsibleInventory := ""
    AnsibleGitRepo := ""
    AnsiblePlaybookPath := ""
    AnsibleCollections := ""
    Privileged := false
    Debug := false
    NodeSelector := []
    Tolerations := []
    SELinuxLevel := ""
    Resources := ""
    StorageClass := ""
    Workflow := [] }

/-- The step-0 override of scenario C: ContainerImage = "custom:v2". -/
def scenarioStep : AnsibleTestWorkflowSpec :=
  { emptyStep with ContainerImage := "custom:v2" }

/-- Scenario C: base image "default:v1", one step overriding it. -/
def scenarioSpec : AnsibleTestSpec :=
  { baseSpec with Workflow := [scenarioStep] }

/-- The condition list of an initialized instance (timestamps = 7). -/
def initedConds : List Cond :=
  [unknownCondition ReadyCondition InitReason ReadyInitMessage 7,
   unknownCondition ServiceConfigReadyCondition InitReason ServiceConfigReadyMessage 7,
   unknownCondition DeploymentReadyCondition InitReason DeploymentReadyInitMessage 7]

/-- An instance with initialized conditions. -/
def sampleInst : AnsibleTest :=
  { Name := "ansibletest-sample", Spec := baseSpec, Conditions := some initedConds }

/-- An instance not yet seen by the controller (`Status.Conditions` nil). -/
def newInst : AnsibleTest :=
  { Name := "ansibletest-sample", Spec := baseSpec, Conditions := none }

/-- A benign environment: instance found, everything succeeds. -/
def sampleEnv : ReconcileEnv :=
  { getRes := .found
    helperErr := none
    nextAction := .Wait
    nextWorkflowStep := 0
    nextActionErr := none
    lockAcquired := true
    acquireErr := none
    lockReleased := true
    releaseErr := none
    pvcResult := {}
    pvcErr := none
    mountCerts := false
    containerImageErr := none
    podResult := {}
    podErr := none
    patchErr := none
    now := 9 }

/-- The string-typed parameters resolved with the `"string"` tag by the
controller (PrepareAnsibleEnv). -/
def stringResolvedFields : List String :=
  ["WorkloadSSHKeySecretName", "ComputesSSHKeySecretName", "ContainerImage",
   "AnsibleExtraVars", "AnsibleVarFiles", "AnsibleInventory",
   "AnsibleGitRepo", "AnsiblePlaybookPath", "AnsibleCollections"]

lemma overwrite_string_assert (spec : AnsibleTestSpec) (n : Int) (hn : 0 ≤ n) (name : String)
    (hbase : ∃ s, specFieldByName spec name = some (.gString s))
    (hwf : ∀ w, ∃ s, workflowFieldByName w name = some (.gString s)) :
    ∃ s, (OverwriteAnsibleWithWorkflow spec name "string" n).bind assertString = some s := by
  obtain ⟨s, hs⟩ := overwrite_string_total spec name n hn hbase hwf
  exact ⟨s, by rw [hs]; rfl⟩

/-! ## Claims -/

/-- C1 (counterexample): as stated, the claim is false — for an
unrecognized type tag (here `"int"`) at a step index inside the override
list, `OverwriteAnsibleWithWorkflow` returns `nil`
(ansibletest_controller.go:322), and both caller type assertions
(`.(bool)`, `.(string)`) fail on that value. -/
theorem C1_counterexample :
    OverwriteAnsibleWithWorkflow { baseSpec with Workflow := [emptyStep] }
      "Privileged" "int" 0 = some GoValue.gNil ∧
    assertBool GoValue.gNil = none ∧ assertString GoValue.gNil = none := by
  refine ⟨?_, rfl, rfl⟩
  decide

/-- C1 (amended): restricted to the tag/field pairs the controller actually
uses, the resolver is total and its callers' type assertions always
succeed: for every spec and every step index ≥ 0 (any workflow length,
including the empty one), the `"pbool"` resolutions of `Privileged` and
`Debug` produce a `bool`, the `"string"` resolutions of the nine string
parameters produce a `string`, and `PrepareAnsibleEnv` never panics.  The
resolver is a pure function (it is a Lean `def` with no state), so it is
side-effect-free. -/
theorem C1_resolver_total_on_used_table (spec : AnsibleTestSpec) (n : Int) (hn : 0 ≤ n) :
    (∃ b, (OverwriteAnsibleWithWorkflow spec "Privileged" "pbool" n).bind assertBool = some b) ∧
    (∃ b, (OverwriteAnsibleWithWorkflow spec "Debug" "pbool" n).bind assertBool = some b) ∧
    (∀ name, name ∈ stringResolvedFields →
      ∃ s, (OverwriteAnsibleWithWorkflow spec name "string" n).bind assertString = some s) ∧
    (PrepareAnsibleEnv spec n).isSome = true := by
  refine ⟨privileged_isSome spec n hn, ?_, ?_, PrepareAnsibleEnv_isSome spec n hn⟩
  · obtain ⟨b, hb⟩ := overwrite_pbool_total spec "Debug" n hn ⟨_, rfl⟩ (fun w => ⟨_, rfl⟩)
    exact ⟨b, by rw [hb]; rfl⟩
  · intro name hname
    fin_cases hname <;>
      exact overwrite_string_assert spec n hn _ ⟨_, rfl⟩ (fun w => ⟨_, rfl⟩)

/-- C1 witness: the amended theorem applied at the scenario-C spec and
step 0. -/
theorem C1_witness :
    (0 : Int) ≤ 0 ∧ (PrepareAnsibleEnv scenarioSpec 0).isSome = true :=
  ⟨by decide, (C1_resolver_total_on_used_table scenarioSpec 0 (by decide)).2.2.2⟩

/-- C2: for every field name, type tag and step index greater than or
equal to the override-list length (in particular for the empty list),
the resolver returns exactly the base spec field value. -/
theorem C2_beyond_list_returns_base (spec : AnsibleTestSpec) (name tag : String) (n : Int)
    (hn : (spec.Workflow.length : Int) ≤ n) :
    OverwriteAnsibleWithWorkflow spec name tag n = specFieldByName spec name :=
  overwrite_out_of_range spec name tag n hn

/-- C2 witness: the empty override list at step 0. -/
theorem C2_witness :
    ((baseSpec.Workflow.length : Int) ≤ 0) ∧
    OverwriteAnsibleWithWorkflow baseSpec "ContainerImage" "string" 0 =
      specFieldByName baseSpec "ContainerImage" :=
  ⟨by decide, C2_beyond_list_returns_base baseSpec "ContainerImage" "string" 0 (by decide)⟩

/-- C3: for every string-typed field at an in-range step, a non-empty
override wins and an empty override falls back to the base value. -/
theorem C3_string_resolution (spec : AnsibleTestSpec) (name : String) (n : Int)
    (hn : 0 ≤ n) {w : AnsibleTestWorkflowSpec} (hw : spec.Workflow[n.toNat]? = some w)
    {ov base : String}
    (hwf : workflowFieldByName w name = some (.gString ov))
    (hbase : specFieldByName spec name = some (.gString base)) :
    OverwriteAnsibleWithWorkflow spec name "string" n =
      some (.gString (if ov = "" then base else ov)) :=
  overwrite_string_eq spec name n hn hw hwf hbase

/-- C3 witness — scenario C: base ContainerImage "default:v1", step-0
override "custom:v2": effective image at step 0 is "custom:v2" (by the
theorem), at step 1 (beyond the list) it is "default:v1" (evaluated). -/
theorem C3_witness :
    scenarioSpec.Workflow[(0 : Int).toNat]? = some scenarioStep ∧
    OverwriteAnsibleWithWorkflow scenarioSpec "ContainerImage" "string" 0 =
      some (.gString (if "custom:v2" = "" then "default:v1" else "custom:v2")) ∧
    OverwriteAnsibleWithWorkflow scenarioSpec "ContainerImage" "string" 1 =
      some (.gString "default:v1") :=
  ⟨rfl, C3_string_resolution scenarioSpec "ContainerImage" 0 (by decide) rfl rfl rfl,
   by decide⟩

/-- C4: for every pbool-resolved field at an in-range step, a nil override
pointer falls back to the base boolean (never to false), and a non-nil
pointer yields the pointed-to value. -/
theorem C4_pbool_resolution (spec : AnsibleTestSpec) (name : String) (n : Int)
    (hn : 0 ≤ n) {w : AnsibleTestWorkflowSpec} (hw : spec.Workflow[n.toNat]? = some w)
    {p : Option Bool} {b : Bool}
    (hwf : workflowFieldByName w name = some (.gPBool p))
    (hbase : specFieldByName spec name = some (.gBool b)) :
    OverwriteAnsibleWithWorkflow spec name "pbool" n =
      some (.gBool (match p with | some v => v | none => b)) := by
  have h := overwrite_pbool_eq spec name n hn hw hwf hbase
  cases p with
  | none => exact h
  | some v => exact h

/-- A spec whose base Privileged is true, with one all-unset step. -/
def privTrueSpec : AnsibleTestSpec :=
  { baseSpec with Privileged := true, Workflow := [emptyStep] }

/-- A spec whose base Privileged is true, with one step overriding
Privileged to false. -/
def privOverrideSpec : AnsibleTestSpec :=
  { baseSpec with Privileged := true, Workflow := [{ emptyStep with Privileged := some false }] }

/-- C4 witness: base Privileged = true; a step with no Privileged override
resolves to true (the base, not false), applied through the theorem; and a
step with an explicit false override resolves to false (evaluated). -/
theorem C4_witness :
    privTrueSpec.Workflow[(0 : Int).toNat]? = some emptyStep ∧
    OverwriteAnsibleWithWorkflow privTrueSpec "Privileged" "pbool" 0 =
      some (.gBool (match (none : Option Bool) with | some v => v | none => true)) ∧
    OverwriteAnsibleWithWorkflow privOverrideSpec "Privileged" "pbool" 0 =
      some (.gBool false) :=
  ⟨rfl, C4_pbool_resolution privTrueSpec "Privileged" 0 (by decide) rfl rfl rfl,
   by decide⟩

/-- No branch of the pod-creation path touches the Ready condition: it only
marks ServiceConfigReady and DeploymentReady. -/
lemma createPath_ready_unchanged (env : ReconcileEnv) (inst : AnsibleTest)
    (conds0 : List Cond) (il el : List String) (b : BodyOut)
    (hb : createPath env inst conds0 il el = some b) :
    getCond b.conds ReadyCondition = getCond conds0 ReadyCondition := by
  simp only [createPath] at hb
  cases hpvc : env.pvcErr with
  | some e =>
    rw [hpvc] at hb
    dsimp only at hb
    injection hb with hb
    rw [← hb]
  | none =>
    rw [hpvc] at hb
    dsimp only at hb
    split at hb
    · injection hb with hb
      rw [← hb]
    · cases hprep : PrepareAnsibleEnv inst.Spec env.nextWorkflowStep with
      | none =>
        rw [hprep] at hb
        exact Option.noConfusion hb
      | some prep =>
        rw [hprep] at hb
        dsimp only at hb
        cases hpriv : (OverwriteAnsibleWithWorkflow inst.Spec "Privileged" "pbool"
            env.nextWorkflowStep).bind assertBool with
        | none =>
          rw [hpriv] at hb
          exact Option.noConfusion hb
        | some pb =>
          rw [hpriv] at hb
          dsimp only at hb
          cases himg : env.containerImageErr with
          | some e =>
            rw [himg] at hb
            dsimp only at hb
            injection hb with hb
            rw [← hb]
            exact getCond_setCond_ne conds0 env.now (by decide)
          | none =>
            rw [himg] at hb
            dsimp only at hb
            cases happ : applyPlacementOverrides inst.Spec env.nextWorkflowStep with
            | none =>
              rw [happ] at hb
              exact Option.noConfusion hb
            | some spec1 =>
              rw [happ] at hb
              dsimp only at hb
              cases hpod : env.podErr with
              | some e =>
                rw [hpod] at hb
                dsimp only at hb
                split at hb
                · injection hb with hb
                  rw [← hb]
                  exact getCond_setCond_ne conds0 env.now
                    (show ReadyCondition ≠ ServiceConfigReadyCondition from by decide)
                · injection hb with hb
                  rw [← hb]
                  exact (getCond_setCond_ne _ env.now
                      (show ReadyCondition ≠ DeploymentReadyCondition from by decide)).trans
                    (getCond_setCond_ne conds0 env.now
                      (show ReadyCondition ≠ ServiceConfigReadyCondition from by decide))
              | none =>
                rw [hpod] at hb
                dsimp only at hb
                split at hb
                · injection hb with hb
                  rw [← hb]
                  exact (getCond_setCond_ne _ env.now
                      (show ReadyCondition ≠ DeploymentReadyCondition from by decide)).trans
                    (getCond_setCond_ne conds0 env.now
                      (show ReadyCondition ≠ ServiceConfigReadyCondition from by decide))
                · injection hb with hb
                  rw [← hb]
                  exact getCond_setCond_ne conds0 env.now
                    (show ReadyCondition ≠ ServiceConfigReadyCondition from by decide)

/-- No branch of the Reconcile body modifies the Ready condition relative
to the pre-reconcile snapshot (the first-seen init path starts from an
empty snapshot). -/
lemma body_ready_unchanged (env : ReconcileEnv) (inst : AnsibleTest) (holdsLock : Bool)
    (b : BodyOut) (hb : reconcileBody env inst holdsLock = some b) :
    getCond (inst.Conditions.getD []) ReadyCondition = none ∨
    getCond b.conds ReadyCondition = getCond (inst.Conditions.getD []) ReadyCondition := by
  cases hco : inst.Conditions with
  | none =>
    left
    rfl
  | some conds0 =>
    right
    show getCond b.conds ReadyCondition = getCond conds0 ReadyCondition
    unfold reconcileBody at hb
    rw [hco] at hb
    dsimp only at hb
    cases hact : env.nextAction with
    | Failure =>
      rw [hact] at hb
      dsimp only at hb
      injection hb with hb
      rw [← hb]
    | Wait =>
      rw [hact] at hb
      dsimp only at hb
      injection hb with hb
      rw [← hb]
    | EndTesting =>
      rw [hact] at hb
      dsimp only at hb
      split at hb
      · injection hb with hb
        rw [← hb]
      · injection hb with hb
        rw [← hb]
        exact getCond_setCond_ne conds0 env.now (by decide)
    | CreateFirstPod =>
      rw [hact] at hb
      dsimp only at hb
      split at hb
      · injection hb with hb
        rw [← hb]
      · exact createPath_ready_unchanged env inst conds0 _ _ b hb
    | CreateNextPod =>
      rw [hact] at hb
      dsimp only at hb
      split at hb
      · injection hb with hb
        rw [← hb]
      · exact createPath_ready_unchanged env inst conds0 _ _ b hb

/-- C6: the deferred status-patch step of `Reconcile`
(ansibletest_controller.go:98-113): (a) it leaves Ready True iff all
sub-conditions were True at patch time or Ready was already True (so it
marks Ready True exactly when all sub-conditions are True); (b) every
condition whose status equals its pre-reconcile status keeps its
pre-reconcile lastTransitionTime; (c) while Ready is Unknown (or absent),
Ready receives the status, reason and message of the first non-ready
sub-condition.  The hypothesis — the body leaves Ready exactly as in the
snapshot, or the snapshot has no Ready condition — is itself proved for
every body path as the last conjunct. -/
theorem C6_deferred_status_patch (cs saved : List Cond) (now : Nat)
    (hready : getCond saved ReadyCondition = none ∨
              getCond cs ReadyCondition = getCond saved ReadyCondition) :
    ((statusOf (deferPatch cs saved now) ReadyCondition = some CondStatus.ctrue) ↔
      (AllSubConditionIsTrue cs = true ∨ statusOf cs ReadyCondition = some CondStatus.ctrue)) ∧
    (∀ t s c, getCond saved t = some s → getCond (deferPatch cs saved now) t = some c →
      c.status = s.status → c.ltt = s.ltt) ∧
    (AllSubConditionIsTrue cs = false →
      (statusOf cs ReadyCondition = none ∨ statusOf cs ReadyCondition = some CondStatus.cunknown) →
      ∃ c0 c', firstNonReadySub cs = some c0 ∧
        getCond (deferPatch cs saved now) ReadyCondition = some c' ∧
        c'.status = c0.status ∧ c'.reason = c0.reason ∧ c'.message = c0.message) ∧
    (∀ env inst holdsLock b, reconcileBody env inst holdsLock = some b →
      (getCond (inst.Conditions.getD []) ReadyCondition = none ∨
       getCond b.conds ReadyCondition = getCond (inst.Conditions.getD []) ReadyCondition)) :=
  ⟨deferPatch_ready_true_iff cs saved now,
   deferPatch_ltt cs saved now hready,
   fun hA hu => deferPatch_mirror_core cs saved now hA hu,
   body_ready_unchanged⟩

/-- C6 witness: the theorem applied to an initialized condition list
(Ready/ServiceConfigReady Unknown, DeploymentReady False) against a
snapshot, projecting part (a): Ready does not become True. -/
theorem C6_witness :
    (getCond initedConds ReadyCondition = none ∨
     getCond initedConds ReadyCondition = getCond initedConds ReadyCondition) ∧
    ((statusOf (deferPatch initedConds initedConds 9) ReadyCondition =
        some CondStatus.ctrue) ↔
      (AllSubConditionIsTrue initedConds = true ∨
        statusOf initedConds ReadyCondition = some CondStatus.ctrue)) :=
  ⟨Or.inr rfl,
   (C6_deferred_status_patch initedConds initedConds 9 (Or.inr rfl)).1⟩

/-- C5: on the EndTesting action, Reconcile always attempts the lock
Release; when Release does not report the lock released it requeues after
the fixed interval, returns the release error and leaves DeploymentReady
exactly as it was; only after a successful Release is DeploymentReady True,
and then this instance no longer holds the lock — DeploymentReady is never
True while the instance still holds it (given it was not already True on
entry, which EndTesting guarantees for a lock holder). -/
theorem C5_endtesting_release_gates_deployment_ready (env : ReconcileEnv)
    (inst : AnsibleTest) (holdsLock : Bool) (cs : List Cond)
    (hget : env.getRes = .found) (hhelp : env.helperErr = none)
    (hconds : inst.Conditions = some cs) (haction : env.nextAction = .EndTesting)
    (hpatch : env.patchErr = none)
    (hentry : holdsLock = true →
      statusOf cs DeploymentReadyCondition ≠ some CondStatus.ctrue) :
    ∃ out, Reconcile env inst holdsLock = some out ∧
      out.releaseAttempted = true ∧
      out.podCreateAttempted = false ∧
      (env.lockReleased = false →
        out.result.RequeueAfter = RequeueAfterValue ∧ out.err = env.releaseErr ∧
        statusOfOpt out.conditions DeploymentReadyCondition =
          statusOf cs DeploymentReadyCondition ∧
        out.holdsLockAfter = holdsLock) ∧
      (env.lockReleased = true →
        statusOfOpt out.conditions DeploymentReadyCondition = some CondStatus.ctrue ∧
        out.holdsLockAfter = false ∧ out.result = {} ∧ out.err = none) ∧
      (out.holdsLockAfter = true →
        statusOfOpt out.conditions DeploymentReadyCondition ≠ some CondStatus.ctrue) := by
  cases hrel : env.lockReleased with
  | false =>
    have hrec : Reconcile env inst holdsLock = some
        { result := { RequeueAfter := RequeueAfterValue }
          err := env.releaseErr
          conditions := some (deferPatch cs cs env.now)
          spec := inst.Spec
          acquireAttempted := false
          releaseAttempted := true
          pvcAttempted := false
          podCreateAttempted := false
          holdsLockAfter := holdsLock
          infoLogs := [InfoCanNotReleaseLock testOperatorLockName]
          errorLogs := [] } := by
      unfold Reconcile reconcileBody
      rw [hget, hhelp, hconds, haction, hrel, hpatch]
      rfl
    have hdep := statusOf_deferPatch_ne cs cs env.now
      (show DeploymentReadyCondition ≠ ReadyCondition from by decide)
    refine ⟨_, hrec, rfl, rfl, ?_, ?_, ?_⟩
    · intro _
      exact ⟨rfl, rfl, hdep, rfl⟩
    · intro h
      exact Bool.noConfusion h
    · intro hh
      intro hcon
      apply hentry hh
      rw [← hdep]
      exact hcon
  | true =>
    have hrec : Reconcile env inst holdsLock = some
        { result := {}
          err := none
          conditions := some (deferPatch
            (markTrue cs DeploymentReadyCondition DeploymentReadyMessage env.now) cs env.now)
          spec := inst.Spec
          acquireAttempted := false
          releaseAttempted := true
          pvcAttempted := false
          podCreateAttempted := false
          holdsLockAfter := false
          infoLogs := [InfoTestingCompleted]
          errorLogs := [] } := by
      unfold Reconcile reconcileBody
      rw [hget, hhelp, hconds, haction, hrel, hpatch]
      rfl
    refine ⟨_, hrec, rfl, rfl, ?_, ?_, ?_⟩
    · intro h
      exact Bool.noConfusion h
    · intro _
      refine ⟨?_, rfl, rfl, rfl⟩
      show statusOf (deferPatch
        (markTrue cs DeploymentReadyCondition DeploymentReadyMessage env.now) cs env.now)
          DeploymentReadyCondition = some CondStatus.ctrue
      rw [statusOf_deferPatch_ne _ _ _
        (show DeploymentReadyCondition ≠ ReadyCondition from by decide)]
      exact statusOf_markTrue_self cs DeploymentReadyCondition DeploymentReadyMessage env.now
    · intro hh
      exact Bool.noConfusion hh

/-- C5 witness: the theorem applied in an environment where the release
fails (and one where it succeeds is covered by the same theorem through
`env.lockReleased = true`). -/
theorem C5_witness :
    ({ sampleEnv with nextAction := .EndTesting, lockReleased := false } :
        ReconcileEnv).getRes = GetRes.found ∧
    (∃ out, Reconcile { sampleEnv with nextAction := .EndTesting, lockReleased := false }
        sampleInst true = some out ∧ out.releaseAttempted = true) :=
  ⟨rfl,
   (C5_endtesting_release_gates_deployment_ready
      { sampleEnv with nextAction := .EndTesting, lockReleased := false }
      sampleInst true initedConds rfl rfl rfl rfl rfl
      (fun _ => by decide)).elim
    fun out h => ⟨out, h.1, h.2.1⟩⟩

/-- C7: when lock acquisition fails, both creation actions requeue after
the fixed interval, return the acquire error and create no pod; the
difference is the surfacing — CreateFirstPod logs an Info message (benign
contention), CreateNextPod logs an Error message (invariant violation). -/
theorem C7_lock_acquisition_failure (env : ReconcileEnv) (inst : AnsibleTest)
    (holdsLock : Bool) (cs : List Cond)
    (hget : env.getRes = .found) (hhelp : env.helperErr = none)
    (hconds : inst.Conditions = some cs) (hpatch : env.patchErr = none)
    (hacq : env.lockAcquired = false)
    (haction : env.nextAction = .CreateFirstPod ∨ env.nextAction = .CreateNextPod) :
    ∃ out, Reconcile env inst holdsLock = some out ∧
      out.result.RequeueAfter = RequeueAfterValue ∧
      out.podCreateAttempted = false ∧
      out.pvcAttempted = false ∧
      out.acquireAttempted = true ∧
      out.err = env.acquireErr ∧
      (env.nextAction = .CreateFirstPod →
        out.infoLogs = [InfoCanNotAcquireLock testOperatorLockName] ∧ out.errorLogs = []) ∧
      (env.nextAction = .CreateNextPod →
        out.errorLogs = [ErrConfirmLockOwnership testOperatorLockName] ∧ out.infoLogs = []) := by
  rcases haction with ha | ha
  · have hrec : Reconcile env inst holdsLock = some
        { result := { RequeueAfter := RequeueAfterValue }
          err := env.acquireErr
          conditions := some (deferPatch cs cs env.now)
          spec := inst.Spec
          acquireAttempted := true
          releaseAttempted := false
          pvcAttempted := false
          podCreateAttempted := false
          holdsLockAfter := holdsLock
          infoLogs := [InfoCanNotAcquireLock testOperatorLockName]
          errorLogs := [] } := by
      unfold Reconcile reconcileBody
      rw [hget, hhelp, hconds, ha, hacq, hpatch]
      rfl
    refine ⟨_, hrec, rfl, rfl, rfl, rfl, rfl, fun _ => ⟨rfl, rfl⟩, fun hcontra => ?_⟩
    rw [ha] at hcontra
    exact absurd hcontra (by decide)
  · have hrec : Reconcile env inst holdsLock = some
        { result := { RequeueAfter := RequeueAfterValue }
          err := env.acquireErr
          conditions := some (deferPatch cs cs env.now)
          spec := inst.Spec
          acquireAttempted := true
          releaseAttempted := false
          pvcAttempted := false
          podCreateAttempted := false
          holdsLockAfter := holdsLock
          infoLogs := []
          errorLogs := [ErrConfirmLockOwnership testOperatorLockName] } := by
      unfold Reconcile reconcileBody
      rw [hget, hhelp, hconds, ha, hacq, hpatch]
      rfl
    refine ⟨_, hrec, rfl, rfl, rfl, rfl, rfl, fun hcontra => ?_, fun _ => ⟨rfl, rfl⟩⟩
    rw [ha] at hcontra
    exact absurd hcontra (by decide)

/-- C7 witness: the theorem applied to a CreateFirstPod contention. -/
theorem C7_witness :
    ({ sampleEnv with nextAction := .CreateFirstPod, lockAcquired := false } :
        ReconcileEnv).lockAcquired = false ∧
    (∃ out, Reconcile { sampleEnv with nextAction := .CreateFirstPod, lockAcquired := false }
        sampleInst false = some out ∧
      out.result.RequeueAfter = RequeueAfterValue ∧ out.podCreateAttempted = false) :=
  ⟨rfl,
   (C7_lock_acquisition_failure
      { sampleEnv with nextAction := .CreateFirstPod, lockAcquired := false }
      sampleInst false initedConds rfl rfl rfl rfl rfl (Or.inl rfl)).elim
    fun out h => ⟨out, h.1, h.2.1, h.2.2.1⟩⟩

/-- C9: for a first-seen instance (nil Conditions), Reconcile initializes
Ready, ServiceConfigReady and DeploymentReady to Unknown and returns
success immediately — no lock call, no PVC ensure, no pod creation. -/
theorem C9_first_seen_initializes (env : ReconcileEnv) (inst : AnsibleTest)
    (holdsLock : Bool)
    (hget : env.getRes = .found) (hhelp : env.helperErr = none)
    (hnew : inst.Conditions = none) (hpatch : env.patchErr = none) :
    ∃ out, Reconcile env inst holdsLock = some out ∧
      out.result = {} ∧ out.err = none ∧
      out.acquireAttempted = false ∧ out.releaseAttempted = false ∧
      out.pvcAttempted = false ∧ out.podCreateAttempted = false ∧
      statusOfOpt out.conditions ReadyCondition = some CondStatus.cunknown ∧
      statusOfOpt out.conditions ServiceConfigReadyCondition = some CondStatus.cunknown ∧
      statusOfOpt out.conditions DeploymentReadyCondition = some CondStatus.cunknown := by
  have hrec : Reconcile env inst holdsLock = some
      { result := {}
        err := none
        conditions := some (deferPatch
          [unknownCondition ReadyCondition InitReason ReadyInitMessage env.now,
           unknownCondition ServiceConfigReadyCondition InitReason ServiceConfigReadyMessage env.now,
           unknownCondition DeploymentReadyCondition InitReason DeploymentReadyInitMessage env.now]
          [] env.now)
        spec := inst.Spec
        acquireAttempted := false
        releaseAttempted := false
        pvcAttempted := false
        podCreateAttempted := false
        holdsLockAfter := holdsLock
        infoLogs := []
        errorLogs := [] } := by
    unfold Reconcile reconcileBody
    rw [hget, hhelp, hnew, hpatch]
    rfl
  exact ⟨_, hrec, rfl, rfl, rfl, rfl, rfl, rfl, rfl, rfl, rfl⟩

/-- C9 witness: the theorem applied to a concrete first-seen instance. -/
theorem C9_witness :
    sampleEnv.getRes = GetRes.found ∧ newInst.Conditions = none ∧
    (∃ out, Reconcile sampleEnv newInst false = some out ∧
      out.result = {} ∧ out.err = none) :=
  ⟨rfl, rfl,
   (C9_first_seen_initializes sampleEnv newInst false rfl rfl rfl rfl).elim
    fun out h => ⟨out, h.1, h.2.1, h.2.2.1⟩⟩

lemma condView_setFalseCond_self (cs : List Cond) (t reason severity msg : String) (now : Nat) :
    condView (setFalseCond cs t reason severity msg now) t =
      some (CondStatus.cfalse, reason, severity, msg) := by
  unfold condView setFalseCond
  rw [getCond_setCond_self]
  rfl

/-- The environment of the C8 counterexample: pod submission fails with
"boom" and the subsequent lock release fails with "lock not owned". -/
def c8Env : ReconcileEnv :=
  { sampleEnv with
    nextAction := .CreateFirstPod
    podErr := some "boom"
    lockReleased := false
    releaseErr := some "lock not owned" }

/-- C8 (counterexample): as stated the claim is false.  With a failing pod
submission ("boom") whose subsequent `ReleaseLock` does not report the lock
released, Reconcile returns the release error — not the submission error —
and DeploymentReady is left untouched (still Unknown/Init), not set to
False/Error (ansibletest_controller.go:253-255 returns before the
condition is set). -/
theorem C8_counterexample :
    (Reconcile c8Env sampleInst true).map
      (fun o => (o.err, condView (o.conditions.getD []) DeploymentReadyCondition)) =
    some (some "lock not owned",
      some (CondStatus.cunknown, InitReason, SeverityNone, DeploymentReadyInitMessage)) := by
  decide

/-- C8 (amended): whenever pod submission fails, Reconcile attempts the
lock release; if the release reports the lock released, it sets
DeploymentReady to False with reason Error carrying the submission error
message and returns the submission error; if the release fails, it returns
the release error and leaves DeploymentReady unchanged. -/
theorem C8_submission_failure_releases_lock (env : ReconcileEnv) (inst : AnsibleTest)
    (holdsLock : Bool) (cs : List Cond) (e : String)
    (hget : env.getRes = .found) (hhelp : env.helperErr = none)
    (hconds : inst.Conditions = some cs) (hpatch : env.patchErr = none)
    (haction : env.nextAction = .CreateFirstPod ∨ env.nextAction = .CreateNextPod)
    (hacq : env.lockAcquired = true)
    (hpvcE : env.pvcErr = none) (hpvcR : env.pvcResult = {})
    (himg : env.containerImageErr = none)
    (hstep : 0 ≤ env.nextWorkflowStep)
    (hpod : env.podErr = some e) :
    ∃ out, Reconcile env inst holdsLock = some out ∧
      out.releaseAttempted = true ∧ out.podCreateAttempted = true ∧
      (env.lockReleased = true →
        out.err = some e ∧ out.result = env.podResult ∧ out.holdsLockAfter = false ∧
        condView (out.conditions.getD []) DeploymentReadyCondition =
          some (CondStatus.cfalse, ErrorReason, SeverityWarning,
                DeploymentReadyErrorMessage e)) ∧
      (env.lockReleased = false →
        out.err = env.releaseErr ∧ out.result = {} ∧ out.holdsLockAfter = true ∧
        condView (out.conditions.getD []) DeploymentReadyCondition =
          condView cs DeploymentReadyCondition) := by
  obtain ⟨p, hp⟩ := Option.isSome_iff_exists.mp
    (PrepareAnsibleEnv_isSome inst.Spec env.nextWorkflowStep hstep)
  obtain ⟨pb, hpb⟩ := privileged_isSome inst.Spec env.nextWorkflowStep hstep
  obtain ⟨spec1, hspec1⟩ := Option.isSome_iff_exists.mp
    (applyPlacementOverrides_isSome inst.Spec env.nextWorkflowStep hstep)
  have hviewT : condView (deferPatch (setFalseCond
      (markTrue cs ServiceConfigReadyCondition ServiceConfigReadyMessage env.now)
      DeploymentReadyCondition ErrorReason SeverityWarning
      (DeploymentReadyErrorMessage e) env.now) cs env.now) DeploymentReadyCondition =
      some (CondStatus.cfalse, ErrorReason, SeverityWarning, DeploymentReadyErrorMessage e) := by
    rw [condView_deferPatch_ne _ cs env.now
      (show DeploymentReadyCondition ≠ ReadyCondition from by decide)]
    exact condView_setFalseCond_self _ DeploymentReadyCondition ErrorReason SeverityWarning
      (DeploymentReadyErrorMessage e) env.now
  have hviewF : condView (deferPatch
      (markTrue cs ServiceConfigReadyCondition ServiceConfigReadyMessage env.now)
      cs env.now) DeploymentReadyCondition = condView cs DeploymentReadyCondition := by
    rw [condView_deferPatch_ne _ cs env.now
      (show DeploymentReadyCondition ≠ ReadyCondition from by decide)]
    exact condView_setCond_ne cs env.now
      (show DeploymentReadyCondition ≠ ServiceConfigReadyCondition from by decide)
  rcases haction with ha | ha <;>
    cases hrel : env.lockReleased
  case inl.false =>
    have hrec : Reconcile env inst holdsLock = some
        { result := {}
          err := env.releaseErr
          conditions := some (deferPatch
            (markTrue cs ServiceConfigReadyCondition ServiceConfigReadyMessage env.now)
            cs env.now)
          spec := spec1
          acquireAttempted := true
          releaseAttempted := true
          pvcAttempted := true
          podCreateAttempted := true
          holdsLockAfter := true
          infoLogs := [InfoCreatingFirstPod env.nextWorkflowStep]
          errorLogs := [] } := by
      unfold Reconcile reconcileBody createPath
      rw [hget, hhelp, hconds, ha, hacq, hpvcE, hpvcR, hp, hpb, himg, hspec1, hpod, hrel, hpatch]
      rfl
    refine ⟨_, hrec, rfl, rfl, fun h => Bool.noConfusion h, fun _ => ⟨rfl, rfl, rfl, hviewF⟩⟩
  case inl.true =>
    have hrec : Reconcile env inst holdsLock = some
        { result := env.podResult
          err := some e
          conditions := some (deferPatch (setFalseCond
            (markTrue cs ServiceConfigReadyCondition ServiceConfigReadyMessage env.now)
            DeploymentReadyCondition ErrorReason SeverityWarning
            (DeploymentReadyErrorMessage e) env.now) cs env.now)
          spec := spec1
          acquireAttempted := true
          releaseAttempted := true
          pvcAttempted := true
          podCreateAttempted := true
          holdsLockAfter := false
          infoLogs := [InfoCreatingFirstPod env.nextWorkflowStep]
          errorLogs := [] } := by
      unfold Reconcile reconcileBody createPath
      rw [hget, hhelp, hconds, ha, hacq, hpvcE, hpvcR, hp, hpb, himg, hspec1, hpod, hrel, hpatch]
      rfl
    refine ⟨_, hrec, rfl, rfl, fun _ => ⟨rfl, rfl, rfl, hviewT⟩, fun h => Bool.noConfusion h⟩
  case inr.false =>
    have hrec : Reconcile env inst holdsLock = some
        { result := {}
          err := env.releaseErr
          conditions := some (deferPatch
            (markTrue cs ServiceConfigReadyCondition ServiceConfigReadyMessage env.now)
            cs env.now)
          spec := spec1
          acquireAttempted := true
          releaseAttempted := true
          pvcAttempted := true
          podCreateAttempted := true
          holdsLockAfter := true
          infoLogs := [InfoCreatingNextPod env.nextWorkflowStep]
          errorLogs := [] } := by
      unfold Reconcile reconcileBody createPath
      rw [hget, hhelp, hconds, ha, hacq, hpvcE, hpvcR, hp, hpb, himg, hspec1, hpod, hrel, hpatch]
      rfl
    refine ⟨_, hrec, rfl, rfl, fun h => Bool.noConfusion h, fun _ => ⟨rfl, rfl, rfl, hviewF⟩⟩
  case inr.true =>
    have hrec : Reconcile env inst holdsLock = some
        { result := env.podResult
          err := some e
          conditions := some (deferPatch (setFalseCond
            (markTrue cs ServiceConfigReadyCondition ServiceConfigReadyMessage env.now)
            DeploymentReadyCondition ErrorReason SeverityWarning
            (DeploymentReadyErrorMessage e) env.now) cs env.now)
          spec := spec1
          acquireAttempted := true
          releaseAttempted := true
          pvcAttempted := true
          podCreateAttempted := true
          holdsLockAfter := false
          infoLogs := [InfoCreatingNextPod env.nextWorkflowStep]
          errorLogs := [] } := by
      unfold Reconcile reconcileBody createPath
      rw [hget, hhelp, hconds, ha, hacq, hpvcE, hpvcR, hp, hpb, himg, hspec1, hpod, hrel, hpatch]
      rfl
    refine ⟨_, hrec, rfl, rfl, fun _ => ⟨rfl, rfl, rfl, hviewT⟩, fun h => Bool.noConfusion h⟩

/-- C8 witness: the amended theorem applied where the release succeeds. -/
theorem C8_witness :
    ({ sampleEnv with nextAction := .CreateFirstPod, podErr := some "boom" } :
        ReconcileEnv).podErr = some "boom" ∧
    (∃ out, Reconcile { sampleEnv with nextAction := .CreateFirstPod, podErr := some "boom" }
        sampleInst true = some out ∧
      out.releaseAttempted = true ∧ out.podCreateAttempted = true) :=
  ⟨rfl,
   (C8_submission_failure_releases_lock
      { sampleEnv with nextAction := .CreateFirstPod, podErr := some "boom" }
      sampleInst true initedConds "boom" rfl rfl rfl rfl (Or.inl rfl) rfl rfl rfl rfl
      (by decide) rfl).elim
    fun out h => ⟨out, h.1, h.2.1, h.2.2.1⟩⟩

/-- C10: when the target step is inside the workflow list, Reconcile's
in-place block overwrites exactly the NodeSelector, Tolerations,
SELinuxLevel and Resources base fields with the step's non-nil overrides
(a nil override leaves the field alone), leaves every other Spec field
unchanged, and when an override differs from the base value the in-memory
base field no longer equals its original value. -/
theorem C10_placement_overrides_in_place (spec : AnsibleTestSpec) (n : Int)
    (hn : 0 ≤ n) {w : AnsibleTestWorkflowSpec} (hw : spec.Workflow[n.toNat]? = some w) :
    ∃ spec1, applyPlacementOverrides spec n = some spec1 ∧
      spec1.NodeSelector = (match w.NodeSelector with
        | some v => v
        | none => spec.NodeSelector) ∧
      spec1.Tolerations = (match w.Tolerations with
        | some v => v
        | none => spec.Tolerations) ∧
      spec1.SELinuxLevel = (match w.SELinuxLevel with
        | some v => v
        | none => spec.SELinuxLevel) ∧
      spec1.Resources = (match w.Resources with
        | some v => v
        | none => spec.Resources) ∧
      spec1.ContainerImage = spec.ContainerImage ∧
      spec1.WorkloadSSHKeySecretName = spec.WorkloadSSHKeySecretName ∧
      spec1.ComputesSSHKeySecretName = spec.ComputesSSHKeySecretName ∧
      spec1.AnsibleExtraVars = spec.AnsibleExtraVars ∧
      spec1.AnsibleVarFiles = spec.AnsibleVarFiles ∧
      spec1.AnsibleInventory = spec.AnsibleInventory ∧
      spec1.AnsibleGitRepo = spec.AnsibleGitRepo ∧
      spec1.AnsiblePlaybookPath = spec.AnsiblePlaybookPath ∧
      spec1.AnsibleCollections = spec.AnsibleCollections ∧
      spec1.Privileged = spec.Privileged ∧
      spec1.Debug = spec.Debug ∧
      spec1.StorageClass = spec.StorageClass ∧
      spec1.Workflow = spec.Workflow ∧
      (∀ v, w.NodeSelector = some v → v ≠ spec.NodeSelector →
        spec1.NodeSelector ≠ spec.NodeSelector) ∧
      (∀ v, w.Tolerations = some v → v ≠ spec.Tolerations →
        spec1.Tolerations ≠ spec.Tolerations) ∧
      (∀ v, w.SELinuxLevel = some v → v ≠ spec.SELinuxLevel →
        spec1.SELinuxLevel ≠ spec.SELinuxLevel) ∧
      (∀ v, w.Resources = some v → v ≠ spec.Resources →
        spec1.Resources ≠ spec.Resources) := by
  have hlen : n.toNat < spec.Workflow.length := length_of_getElem? hw
  unfold applyPlacementOverrides
  rw [if_pos (by omega), if_neg (by omega), hw]
  dsimp only
  refine ⟨_, rfl, rfl, rfl, rfl, rfl, rfl, rfl, rfl, rfl, rfl, rfl, rfl, rfl, rfl, rfl,
    rfl, rfl, rfl, ?_, ?_, ?_, ?_⟩
  · intro v hv hne
    show (match w.NodeSelector with
      | some v => v
      | none => spec.NodeSelector) ≠ spec.NodeSelector
    rw [hv]
    exact hne
  · intro v hv hne
    show (match w.Tolerations with
      | some v => v
      | none => spec.Tolerations) ≠ spec.Tolerations
    rw [hv]
    exact hne
  · intro v hv hne
    show (match w.SELinuxLevel with
      | some v => v
      | none => spec.SELinuxLevel) ≠ spec.SELinuxLevel
    rw [hv]
    exact hne
  · intro v hv hne
    show (match w.Resources with
      | some v => v
      | none => spec.Resources) ≠ spec.Resources
    rw [hv]
    exact hne

/-- A spec with a step-0 override of NodeSelector and SELinuxLevel. -/
def placementSpec : AnsibleTestSpec :=
  { baseSpec with
    Workflow := [{ emptyStep with
      NodeSelector := some [("kubernetes.io/hostname", "node0")]
      SELinuxLevel := some "s0:c123" }] }

/-- C10 witness: the theorem applied at the step-0 placement override. -/
theorem C10_witness :
    placementSpec.Workflow[(0 : Int).toNat]? =
      some { emptyStep with
        NodeSelector := some [("kubernetes.io/hostname", "node0")]
        SELinuxLevel := some "s0:c123" } ∧
    (∃ spec1, applyPlacementOverrides placementSpec 0 = some spec1 ∧
      spec1.NodeSelector = [("kubernetes.io/hostname", "node0")] ∧
      spec1.SELinuxLevel = "s0:c123" ∧ spec1.Tolerations = placementSpec.Tolerations) :=
  ⟨rfl,
   (C10_placement_overrides_in_place placementSpec 0 (by decide) rfl).elim
    fun spec1 h => ⟨spec1, h.1, by rw [h.2.1]; rfl, by rw [h.2.2.2.1]; rfl,
      by rw [h.2.2.1]; rfl⟩⟩

end TestOperator
